import Mathlib

/-!
# Verification of nemseer's query-to-file-resolution and temporal-validity engine

This file gives a shallow embedding of the core pure logic of the `nemseer`
repository (`src/nemseer/query.py`, `src/nemseer/forecast_type/validators.py`,
`src/nemseer/forecast_type/run_time_generators.py`, `src/nemseer/data.py`,
`src/nemseer/data_compilers.py`, `src/nemseer/downloader.py`) and proves the
frozen claims about it.

Python `datetime.datetime` values (at minute resolution, which is all the
library constructs: `_dt_converter` rejects non-zero seconds) are embedded as a
structure of integer fields.  Python's calendar arithmetic (`toordinal` /
`fromordinal`, used by `timedelta` addition and comparison) is embedded by the
CPython algorithms `_ymd2ord` / `_ord2ymd`, extended proleptically to all
integer years using floor division.
-/

/-- CPython `_is_leap`: leap year predicate of the proleptic Gregorian
calendar. -/
def isLeap (y : Int) : Bool := y % 4 = 0 && (y % 100 ≠ 0 || y % 400 = 0)

/-- Length of a month, as a function of the leap flag (CPython
`_DAYS_IN_MONTH`). -/
def daysInMonthB (leap : Bool) (m : Int) : Int :=
  if m = 2 then (if leap then 29 else 28)
  else if m = 4 ∨ m = 6 ∨ m = 9 ∨ m = 11 then 30
  else 31

/-- CPython `_days_in_month`. -/
def daysInMonth (y m : Int) : Int := daysInMonthB (isLeap y) m

/-- CPython `_DAYS_BEFORE_MONTH` table (days in the year preceding the first
of the month, for a common year). -/
def daysBeforeMonthTable (m : Int) : Int :=
  if m = 1 then 0 else if m = 2 then 31 else if m = 3 then 59
  else if m = 4 then 90 else if m = 5 then 120 else if m = 6 then 151
  else if m = 7 then 181 else if m = 8 then 212 else if m = 9 then 243
  else if m = 10 then 273 else if m = 11 then 304 else 334

/-- CPython `_days_before_month`, as a function of the leap flag. -/
def daysBeforeMonthB (leap : Bool) (m : Int) : Int :=
  daysBeforeMonthTable m + (if 2 < m ∧ leap then 1 else 0)

/-- CPython `_days_before_month`. -/
def daysBeforeMonth (y m : Int) : Int := daysBeforeMonthB (isLeap y) m

/-- CPython `_days_before_year`: number of days between 0001-01-01 and the
first day of year `y` (floor division extends CPython's formula to a proleptic
calendar over all of `ℤ`). -/
def daysBeforeYear (y : Int) : Int :=
  365 * (y - 1) + (y - 1) / 4 - (y - 1) / 100 + (y - 1) / 400

/-- CPython `_ymd2ord`, shifted so that 0001-01-01 maps to 0: the day number
of a calendar date. -/
def toDays (y m d : Int) : Int := daysBeforeYear y + daysBeforeMonth y m + d - 1

/-- Month/day extraction step of CPython `_ord2ymd`, for a day-of-year `r`
(0-based) of a year with leap flag `leap`: month estimate `(n + 50) >> 5`
followed by a one-step correction against `_DAYS_BEFORE_MONTH`.  (CPython
computes the leap flag from the cycle decomposition and asserts
`leapyear == _is_leap(year)`; the flag is passed in here.) -/
def ofYearDay (leap : Bool) (r : Int) : Int × Int :=
  let monthEst := (r + 50) / 32
  let preceding := daysBeforeMonthB leap monthEst
  let month := if r < preceding then monthEst - 1 else monthEst
  let preceding2 := if r < preceding then preceding - daysInMonthB leap month else preceding
  (month, r - preceding2 + 1)

/-- CPython `_ord2ymd`, shifted so that 0 maps to 0001-01-01: calendar date of
a day number.  Follows the CPython algorithm (400/100/4/1-year cycle
decomposition, `n1 == 4 or n100 == 4` end-of-cycle special case, then the
`ofYearDay` month extraction); floor division extends it to negative day
numbers. -/
def ofDays (z : Int) : Int × Int × Int :=
  let n400 := z / 146097
  let r400 := z - 146097 * n400
  let n100 := r400 / 36524
  let r100 := r400 - 36524 * n100
  let n4 := r100 / 1461
  let r4 := r100 - 1461 * n4
  let n1 := r4 / 365
  let r1 := r4 - 365 * n1
  let year := n400 * 400 + n100 * 100 + n4 * 4 + n1 + 1
  if n1 = 4 ∨ n100 = 4 then (year - 1, 12, 31)
  else (year, (ofYearDay (isLeap year) r1).1, (ofYearDay (isLeap year) r1).2)

/-- A valid calendar date (CPython `datetime.date` invariant, without the
year 1..9999 bound: the embedding is proleptic over all of `ℤ`). -/
def ValidYMD (y m d : Int) : Prop :=
  1 ≤ m ∧ m ≤ 12 ∧ 1 ≤ d ∧ d ≤ daysInMonth y m

instance (y m d : Int) : Decidable (ValidYMD y m d) := by
  unfold ValidYMD; infer_instance

/-- The facts needed about `ofYearDay`: it lands on a valid month/day of the
year, and inverts `daysBeforeMonthB leap month + day - 1`. -/
def yearDayOk (leap : Bool) (r : Int) : Prop :=
  1 ≤ (ofYearDay leap r).1 ∧ (ofYearDay leap r).1 ≤ 12 ∧
    1 ≤ (ofYearDay leap r).2 ∧
    (ofYearDay leap r).2 ≤ daysInMonthB leap (ofYearDay leap r).1 ∧
    daysBeforeMonthB leap (ofYearDay leap r).1 + (ofYearDay leap r).2 - 1 = r

instance (leap : Bool) (r : Int) : Decidable (yearDayOk leap r) := by
  unfold yearDayOk; infer_instance

set_option maxRecDepth 4000 in
theorem yearDayOk_false : ∀ r : Fin 365, yearDayOk false (r.val : Int) := by decide

set_option maxRecDepth 4000 in
theorem yearDayOk_true : ∀ r : Fin 365, yearDayOk true (r.val : Int) := by decide

theorem isLeap_eq_true_iff (y : Int) :
    isLeap y = true ↔ (y % 4 = 0 ∧ (y % 100 ≠ 0 ∨ y % 400 = 0)) := by
  simp [isLeap]

theorem isLeap_eq_false_iff (y : Int) :
    isLeap y = false ↔ ¬(y % 4 = 0 ∧ (y % 100 ≠ 0 ∨ y % 400 = 0)) := by
  rw [← isLeap_eq_true_iff]
  simp

/-- `ofDays` produces a valid calendar date and is a right inverse of
`toDays`. -/
theorem ofDays_spec (z : Int) :
    ValidYMD (ofDays z).1 (ofDays z).2.1 (ofDays z).2.2 ∧
    toDays (ofDays z).1 (ofDays z).2.1 (ofDays z).2.2 = z := by
  simp only [ofDays]
  set a := z / 146097 with ha
  set r400 := z - 146097 * a with har400
  set b := r400 / 36524 with hab
  set r100 := r400 - 36524 * b with har100
  set c := r100 / 1461 with hac
  set r4 := r100 - 1461 * c with har4
  set d := r4 / 365 with had
  set r1 := r4 - 365 * d with har1
  set year := a * 400 + b * 100 + c * 4 + d + 1 with hayear
  have hbnd : 0 ≤ r400 ∧ r400 < 146097 ∧ 0 ≤ b ∧ b ≤ 4 ∧ 0 ≤ r100 ∧
      r100 ≤ 36523 ∧ 0 ≤ c ∧ c ≤ 24 ∧ 0 ≤ r4 ∧ r4 ≤ 1460 ∧ 0 ≤ d ∧ d ≤ 4 ∧
      0 ≤ r1 := by omega
  by_cases hsp : d = 4 ∨ b = 4
  · rw [if_pos hsp]
    have hsp2 : (d = 4 ∧ b ≤ 3 ∧ r4 = 1460 ∧ c ≤ 23 ∧ r1 = 0) ∨
        (b = 4 ∧ r400 = 146096 ∧ c = 0 ∧ d = 0 ∧ r1 = 0) := by omega
    rcases hsp2 with h | h
    · have hq4 : (year - 1 - 1) / 4 = a * 100 + b * 25 + c := by omega
      have hq100 : (year - 1 - 1) / 100 = a * 4 + b := by omega
      have hq400 : (year - 1 - 1) / 400 = a := by omega
      have hl : isLeap (year - 1) = true := by
        rw [isLeap_eq_true_iff]; omega
      constructor
      · simp only [ValidYMD, daysInMonth, daysInMonthB, hl]
        norm_num
      · simp only [toDays, daysBeforeYear, daysBeforeMonth, daysBeforeMonthB,
          daysBeforeMonthTable, hl]
        norm_num
        omega
    · have hq4 : (year - 1 - 1) / 4 = a * 100 + 99 := by omega
      have hq100 : (year - 1 - 1) / 100 = a * 4 + 3 := by omega
      have hq400 : (year - 1 - 1) / 400 = a := by omega
      have hl : isLeap (year - 1) = true := by
        rw [isLeap_eq_true_iff]; omega
      constructor
      · simp only [ValidYMD, daysInMonth, daysInMonthB, hl]
        norm_num
      · simp only [toDays, daysBeforeYear, daysBeforeMonth, daysBeforeMonthB,
          daysBeforeMonthTable, hl]
        norm_num
        omega
  · rw [if_neg hsp]
    have hr1b : r1 ≤ 364 := by omega
    have h365 : r1.toNat < 365 := by omega
    have hcast : ((r1.toNat : Nat) : Int) = r1 := Int.toNat_of_nonneg (by omega)
    have hok : yearDayOk (isLeap year) r1 := by
      cases hl : isLeap year with
      | false =>
        have h2 := yearDayOk_false ⟨r1.toNat, h365⟩
        rwa [show ((⟨r1.toNat, h365⟩ : Fin 365).val : Int) = r1 from hcast] at h2
      | true =>
        have h2 := yearDayOk_true ⟨r1.toNat, h365⟩
        rwa [show ((⟨r1.toNat, h365⟩ : Fin 365).val : Int) = r1 from hcast] at h2
    obtain ⟨hm1, hm2, hd1, hd2, hinv⟩ := hok
    constructor
    · exact ⟨hm1, hm2, hd1, hd2⟩
    · simp only [toDays, daysBeforeMonth]
      have hy : daysBeforeYear year = z - r1 := by
        have hq4 : (year - 1) / 4 = a * 100 + b * 25 + c := by omega
        have hq100 : (year - 1) / 100 = a * 4 + b := by omega
        have hq400 : (year - 1) / 400 = a := by omega
        simp only [daysBeforeYear]
        omega
      omega


/-- A Python `datetime.datetime` at minute resolution (the library rejects
non-zero seconds at its string boundary), as its five integer fields. -/
structure Dt where
  year : Int
  month : Int
  day : Int
  hour : Int
  minute : Int
deriving DecidableEq, Repr

/-- The `datetime.datetime` invariant (without the year 1..9999 bound: the
embedding is proleptic over all of `ℤ`). -/
def Dt.Valid (x : Dt) : Prop :=
  1 ≤ x.month ∧ x.month ≤ 12 ∧ 1 ≤ x.day ∧ x.day ≤ daysInMonth x.year x.month ∧
    0 ≤ x.hour ∧ x.hour ≤ 23 ∧ 0 ≤ x.minute ∧ x.minute ≤ 59

instance (x : Dt) : Decidable x.Valid := by
  unfold Dt.Valid; infer_instance

/-- Total minute count of a datetime (CPython stores `datetime` by its
`toordinal()` plus time of day; all `timedelta` arithmetic and comparisons
factor through this). -/
def Dt.toMin (x : Dt) : Int := 1440 * toDays x.year x.month x.day + 60 * x.hour + x.minute

/-- Datetime of a total minute count (CPython `fromordinal` plus
`divmod`-derived time of day). -/
def ofMin (t : Int) : Dt :=
  ⟨(ofDays (t / 1440)).1, (ofDays (t / 1440)).2.1, (ofDays (t / 1440)).2.2,
    t % 1440 / 60, t % 1440 % 60⟩

/-- Python `datetime` comparison.  On valid datetimes the field-lexicographic
comparison CPython performs agrees with comparison of total minute counts
(both orders are the chronological one); the embedding uses the latter. -/
def Dt.le (x w : Dt) : Prop := x.toMin ≤ w.toMin

/-- Python `datetime` strict comparison, via total minute counts. -/
def Dt.lt (x w : Dt) : Prop := x.toMin < w.toMin

instance (x w : Dt) : Decidable (x.le w) := by unfold Dt.le; infer_instance

instance (x w : Dt) : Decidable (x.lt w) := by unfold Dt.lt; infer_instance

/-- Python `datetime + timedelta(minutes=k)` (also negative `k`). -/
def Dt.addMinutes (x : Dt) (k : Int) : Dt := ofMin (x.toMin + k)

/-- Python `datetime + timedelta(days=k)` (also negative `k`). -/
def Dt.addDays (x : Dt) (k : Int) : Dt := ofMin (x.toMin + 1440 * k)

theorem ofMin_valid (t : Int) : (ofMin t).Valid := by
  obtain ⟨⟨a1, a2, a3, a4⟩, -⟩ := ofDays_spec (t / 1440)
  simp only [ofMin, Dt.Valid]
  refine ⟨a1, a2, a3, a4, ?_, ?_, ?_, ?_⟩ <;> omega

theorem ofMin_toMin (t : Int) : (ofMin t).toMin = t := by
  obtain ⟨-, h2⟩ := ofDays_spec (t / 1440)
  simp only [ofMin, Dt.toMin]
  omega

/-- The month index (count of calendar months from month 0 of year 0): the
key quantity for SQLLoader month-file enumeration. -/
def monthIndex (x : Dt) : Int := 12 * x.year + x.month - 1

theorem daysBeforeYear_succ (y : Int) :
    daysBeforeYear (y + 1) = daysBeforeYear y + 365 + (if isLeap y then 1 else 0) := by
  have e4 : y % 4 = 0 → y / 4 = (y - 1) / 4 + 1 := by omega
  have e4n : y % 4 ≠ 0 → y / 4 = (y - 1) / 4 := by omega
  have e100 : y % 100 = 0 → y / 100 = (y - 1) / 100 + 1 := by omega
  have e100n : y % 100 ≠ 0 → y / 100 = (y - 1) / 100 := by omega
  have e400 : y % 400 = 0 → y / 400 = (y - 1) / 400 + 1 := by omega
  have e400n : y % 400 ≠ 0 → y / 400 = (y - 1) / 400 := by omega
  have n4 : (y + 1 - 1) / 4 = y / 4 := by omega
  have n100 : (y + 1 - 1) / 100 = y / 100 := by omega
  have n400 : (y + 1 - 1) / 400 = y / 400 := by omega
  cases hl : isLeap y with
  | false =>
    have hl2 := hl
    rw [isLeap_eq_false_iff] at hl2
    push_neg at hl2
    simp only [daysBeforeYear, hl, Bool.false_eq_true, if_false]
    by_cases h4 : y % 4 = 0
    · obtain ⟨h100, h400⟩ := hl2 h4
      have d1 := e4 h4
      have d2 := e100 h100
      have d3 := e400n h400
      omega
    · have d1 := e4n h4
      have h100 : y % 100 ≠ 0 := by omega
      have h400 : y % 400 ≠ 0 := by omega
      have d2 := e100n h100
      have d3 := e400n h400
      omega
  | true =>
    have hl2 := hl
    rw [isLeap_eq_true_iff] at hl2
    obtain ⟨h4, hor⟩ := hl2
    have d1 := e4 h4
    simp only [daysBeforeYear, hl, if_true]
    rcases hor with h | h
    · have d2 := e100n h
      have d3 : y / 400 = (y - 1) / 400 := e400n (by omega)
      omega
    · have d3 := e400 h
      have d2 : y / 100 = (y - 1) / 100 + 1 := e100 (by omega)
      omega

theorem daysInMonthB_pos (leap : Bool) (m : Int) : 28 ≤ daysInMonthB leap m := by
  unfold daysInMonthB
  split_ifs <;> norm_num

/-- Month-table step for months 1..11, as a bounded fact. -/
theorem dbm_step : ∀ leap : Bool, ∀ mf : Fin 11,
    daysBeforeMonthB leap ((mf.val : Int) + 1) + daysInMonthB leap ((mf.val : Int) + 1) =
      daysBeforeMonthB leap ((mf.val : Int) + 2) := by decide

/-- Month-table totals: a full year is 365/366 days. -/
theorem dbm_year (leap : Bool) :
    daysBeforeMonthB leap 12 + daysInMonthB leap 12 = 365 + (if leap then 1 else 0) := by
  cases leap <;> decide

theorem daysInMonth_pos (y m : Int) : 28 ≤ daysInMonth y m := daysInMonthB_pos _ _

/-- Day number of the first day of the month with month index `i`. -/
def monthIdxBase (i : Int) : Int := toDays (i / 12) (i % 12 + 1) 1

/-- Length of the month with month index `i`. -/
def monthIdxDays (i : Int) : Int := daysInMonth (i / 12) (i % 12 + 1)

theorem toDays_eq_monthIdxBase (y m d : Int) (h1 : 1 ≤ m) (h2 : m ≤ 12) :
    toDays y m d = monthIdxBase (12 * y + m - 1) + d - 1 := by
  have hq : (12 * y + m - 1) / 12 = y := by omega
  have hr : (12 * y + m - 1) % 12 = m - 1 := by omega
  have hm : m - 1 + 1 = m := by ring
  simp only [monthIdxBase, hq, hr, hm, toDays]
  omega

theorem monthIdxDays_eq (y m : Int) (h1 : 1 ≤ m) (h2 : m ≤ 12) :
    monthIdxDays (12 * y + m - 1) = daysInMonth y m := by
  have hq : (12 * y + m - 1) / 12 = y := by omega
  have hr : (12 * y + m - 1) % 12 = m - 1 := by omega
  have hm : m - 1 + 1 = m := by ring
  simp only [monthIdxDays, hq, hr, hm]

theorem daysBeforeMonthB_one (leap : Bool) : daysBeforeMonthB leap 1 = 0 := by
  cases leap <;> decide

theorem monthIdxBase_succ (i : Int) :
    monthIdxBase (i + 1) = monthIdxBase i + monthIdxDays i := by
  by_cases h11 : i % 12 = 11
  · have hq : (i + 1) / 12 = i / 12 + 1 := by omega
    have hr : (i + 1) % 12 = 0 := by omega
    simp only [monthIdxBase, monthIdxDays, hq, hr, h11, toDays, daysInMonth,
      daysBeforeMonth]
    rw [daysBeforeYear_succ]
    have h1 := daysBeforeMonthB_one (isLeap (i / 12 + 1))
    have h12 := dbm_year (isLeap (i / 12))
    have hx : (11 : Int) + 1 = 12 := by norm_num
    rw [hx] at *
    cases hl : isLeap (i / 12) <;> simp [hl] at h12 ⊢ <;> omega
  · have hq : (i + 1) / 12 = i / 12 := by omega
    have hr : (i + 1) % 12 = i % 12 + 1 := by omega
    have hb : (((i % 12).toNat : Nat) : Int) = i % 12 :=
      Int.toNat_of_nonneg (by omega)
    have hstep := dbm_step (isLeap (i / 12)) ⟨(i % 12).toNat, by omega⟩
    rw [show (((⟨(i % 12).toNat, by omega⟩ : Fin 11).val : Nat) : Int) = i % 12 from hb]
      at hstep
    simp only [monthIdxBase, monthIdxDays, hq, hr, toDays, daysInMonth,
      daysBeforeMonth]
    have ha : i % 12 + 1 + 1 = i % 12 + 2 := by ring
    rw [ha]
    omega

theorem monthIdxBase_mono {i j : Int} (h : i < j) :
    monthIdxBase i + monthIdxDays i ≤ monthIdxBase j := by
  have base : monthIdxBase i + monthIdxDays i ≤ monthIdxBase (i + 1) :=
    le_of_eq (monthIdxBase_succ i).symm
  have step : ∀ n : Int, i + 1 ≤ n →
      monthIdxBase i + monthIdxDays i ≤ monthIdxBase n →
      monthIdxBase i + monthIdxDays i ≤ monthIdxBase (n + 1) := by
    intro n _ hn
    have h2 := monthIdxBase_succ n
    have h3 : 28 ≤ monthIdxDays n := daysInMonth_pos _ _
    omega
  exact @Int.le_induction
    (fun n => monthIdxBase i + monthIdxDays i ≤ monthIdxBase n)
    (i + 1) base step j h

/-- Chronological order of valid datetimes refines month-index order: a valid
datetime in an earlier calendar month is strictly earlier. -/
theorem toMin_lt_of_monthIndex_lt {x w : Dt} (hx : x.Valid) (hw : w.Valid)
    (h : monthIndex x < monthIndex w) : x.toMin < w.toMin := by
  obtain ⟨xm1, xm2, xd1, xd2, xh1, xh2, xmin1, xmin2⟩ := hx
  obtain ⟨wm1, wm2, wd1, wd2, wh1, wh2, wmin1, wmin2⟩ := hw
  have hex : toDays x.year x.month x.day =
      monthIdxBase (12 * x.year + x.month - 1) + x.day - 1 :=
    toDays_eq_monthIdxBase _ _ _ xm1 xm2
  have hew : toDays w.year w.month w.day =
      monthIdxBase (12 * w.year + w.month - 1) + w.day - 1 :=
    toDays_eq_monthIdxBase _ _ _ wm1 wm2
  have hdx : monthIdxDays (12 * x.year + x.month - 1) = daysInMonth x.year x.month :=
    monthIdxDays_eq _ _ xm1 xm2
  have hmono : monthIdxBase (12 * x.year + x.month - 1) +
      monthIdxDays (12 * x.year + x.month - 1) ≤
      monthIdxBase (12 * w.year + w.month - 1) := by
    apply monthIdxBase_mono
    simp only [monthIndex] at h
    omega
  simp only [Dt.toMin]
  omega

/-- dateutil `relativedelta(months=n).__radd__` (with `_fix`-normalised
months): shift the month index by `n`, then clamp the day with
`min(calendar.monthrange(year, month)[1], day)`. -/
def addMonths (x : Dt) (n : Int) : Dt :=
  let t := x.month - 1 + n
  let y := x.year + t / 12
  let m := t % 12 + 1
  ⟨y, m, min x.day (daysInMonth y m), x.hour, x.minute⟩

theorem addMonths_monthIndex (x : Dt) (n : Int) :
    monthIndex (addMonths x n) = monthIndex x + n := by
  simp only [addMonths, monthIndex]
  omega

theorem addMonths_valid (x : Dt) (n : Int) (hx : x.Valid) : (addMonths x n).Valid := by
  obtain ⟨hm1, hm2, hd1, hd2, hh1, hh2, hmin1, hmin2⟩ := hx
  have hdim := daysInMonth_pos (x.year + (x.month - 1 + n) / 12) ((x.month - 1 + n) % 12 + 1)
  refine ⟨?_, ?_, ?_, ?_, hh1, hh2, hmin1, hmin2⟩
  · simp only [addMonths]; omega
  · simp only [addMonths]; omega
  · simp only [addMonths]; omega
  · simp only [addMonths]
    exact min_le_right _ _

theorem addMonths_zero (x : Dt) (hx : x.Valid) : addMonths x 0 = x := by
  obtain ⟨hm1, hm2, hd1, hd2, -⟩ := hx
  have h1 : (x.month - 1 + 0) / 12 = 0 := by omega
  have h2 : (x.month - 1 + 0) % 12 = x.month - 1 := by omega
  have h3 : x.month - 1 + 1 = x.month := by ring
  cases x with
  | mk y m d hh mm =>
    simp only [addMonths] at *
    rw [h1, h2, h3]
    simp only [add_zero]
    rw [min_eq_left hd2]

/-! ## Embedding of `nemseer/data.py` (the constants the claims need) -/

/-- `nemseer.data.FORECAST_TYPES`. -/
def FORECAST_TYPES : List String := ["P5MIN", "PREDISPATCH", "PDPASA", "STPASA", "MTPASA"]

/-- `nemseer.data.ENUMERATED_TABLES`: logical tables that resolve to
enumerated physical tables, with the number to enumerate to. -/
def ENUMERATED_TABLES : List (String × List (String × Nat)) :=
  [("P5MIN", [("CONSTRAINTSOLUTION", 4)]),
   ("PREDISPATCH", [("CONSTRAINT", 2), ("LOAD", 2)])]

/-! ## Embedding of `nemseer/query.py`: filename resolution -/

/-- `nemseer.query._enumerate_tables`.  In Python this mutates `tables` in
place: `tables.remove(table_str)` deletes the first occurrence (callers only
invoke it under an `if table_str in tables` guard; `remove` would raise
otherwise) and the loop appends `table_str1 .. table_str<range_to>`. -/
def enumerate_tables (tables : List String) (table_str : String) (range_to : Nat) :
    List String :=
  tables.erase table_str ++ (List.range range_to).map (fun i => table_str ++ toString (i + 1))

/-- The `ENUMERATED_TABLES` expansion loop at the head of
`generate_sqlloader_filenames` (also repeated in
`ForecastTypeDownloader.from_Query` and `DataCompiler.from_Query`). -/
def applyEnumeratedTables (forecast_type : String) (tables : List String) : List String :=
  ENUMERATED_TABLES.foldl
    (fun acc p =>
      if forecast_type = p.1 then
        p.2.foldl
          (fun acc2 q => if q.1 ∈ acc2 then enumerate_tables acc2 q.1 q.2 else acc2)
          acc
      else acc)
    tables

/-- Python `str(month).rjust(2, "0")`. -/
def rjust2 (n : Int) : String :=
  let s := toString n
  if s.length < 2 then "0" ++ s else s

/-- `nemseer.query._construct_sqlloader_filename`. -/
def construct_sqlloader_filename (year month : Int) (forecast_type table : String) :
    String :=
  let stryear := toString year
  let strmonth := rjust2 month
  let stem :=
    if forecast_type = "PREDISPATCH" ∧ table ≠ "MNSPBIDTRK" then
      "PUBLIC_DVD_" ++ forecast_type ++ table
    else
      "PUBLIC_DVD_" ++ forecast_type ++ "_" ++ table
  stem ++ "_" ++ stryear ++ strmonth ++ "010000"

/-- `_determine_delta_months` inside `generate_sqlloader_filenames`.

dateutil's `relativedelta(end, start)` computes the largest `k` such that
`start + relativedelta(months=k) <= end` (its while-loop decrements the
initial estimate `D = 12*(end.year - start.year) + end.month - start.month`
at most once when `start <= end`), together with the remainder
`end - (start + k months)` split into day/hour/minute components.  The
source reconstructs the total month count
`full_delta.months + 12 * full_delta.years = k`, then adds one extra month
when the `k`-month mark lands in a different month than `end`, `end` is not
exactly at a month boundary (day 1, hour 0, minute 0), and the remainder is
nonzero (at minute resolution `full_delta.days/hours/minutes` are all zero
iff the remainder is zero). -/
def determine_delta_months (start endd : Dt) : Int :=
  let D := 12 * (endd.year - start.year) + (endd.month - start.month)
  let k := if endd.toMin < (addMonths start D).toMin then D - 1 else D
  let rem := endd.toMin - (addMonths start k).toMin
  if (addMonths start k).month ≠ endd.month ∧
      ¬(endd.day = 1 ∧ endd.hour = 0 ∧ endd.minute = 0) ∧ rem ≠ 0
  then k + 1 else k

/-- `nemseer.query.generate_sqlloader_filenames`: the Python dict (insertion
ordered, keys unique for distinct requested tables) is represented as the
association list of `(year, month, table) ↦ filename` entries in insertion
order. -/
def generate_sqlloader_filenames (run_start run_end : Dt) (forecast_type : String)
    (tables : List String) : List ((Int × Int × String) × String) :=
  let int_months := determine_delta_months run_start run_end
  let intervening_dates :=
    (List.range (int_months.toNat + 1)).map (fun x => addMonths run_start (x : Int))
  let tables2 := applyEnumeratedTables forecast_type tables
  (tables2.map (fun table =>
    intervening_dates.map (fun date =>
      ((date.year, date.month, table),
        construct_sqlloader_filename date.year date.month forecast_type table)))).flatten

/-! ## Embedding of `nemseer/forecast_type/validators.py`

Each validator raises `ValueError` on violation and returns `None` on
success; raising is embedded as `Except.error` with the message.  The source
checks the four datetime inputs in a loop and raises the same message at the
first violation; the embedding tests the conjunction, which produces the same
`Except` value. -/

/-- `validators._determine_last_market_day_end_for_half_hourly`. -/
def determine_last_market_day_end_for_half_hourly (dt : Dt) : Dt :=
  let end_date := if 13 ≤ dt.hour then dt.addDays 2 else dt.addDays 1
  ⟨end_date.year, end_date.month, end_date.day, 4, 0⟩

/-- Python `set(range(0, 60, 5))` in `validate_P5MIN_datetime_inputs`. -/
def p5minAcceptableMinutes : List Int :=
  [0, 5, 10, 15, 20, 25, 30, 35, 40, 45, 50, 55]

/-- `validators.validate_P5MIN_datetime_inputs`. -/
def validate_P5MIN_datetime_inputs (run_start run_end forecasted_start forecasted_end : Dt) :
    Except String Unit :=
  if ¬(run_start.minute ∈ p5minAcceptableMinutes ∧ run_end.minute ∈ p5minAcceptableMinutes ∧
      forecasted_start.minute ∈ p5minAcceptableMinutes ∧
      forecasted_end.minute ∈ p5minAcceptableMinutes) then
    Except.error "P5MIN is run every 5 minutes."
  else if (run_end.addMinutes 55).toMin < forecasted_end.toMin then
    Except.error "For P5MIN, forecasted_end must be within 55 minutes of run_end."
  else Except.ok ()

/-- Python `set((0, 30))` in the half-hourly validators. -/
def halfHourlyAcceptableMinutes : List Int := [0, 30]

/-- `validators.validate_PREDISPATCH_datetime_inputs`. -/
def validate_PREDISPATCH_datetime_inputs
    (run_start run_end forecasted_start forecasted_end : Dt) : Except String Unit :=
  if ¬(run_start.minute ∈ halfHourlyAcceptableMinutes ∧
      run_end.minute ∈ halfHourlyAcceptableMinutes ∧
      forecasted_start.minute ∈ halfHourlyAcceptableMinutes ∧
      forecasted_end.minute ∈ halfHourlyAcceptableMinutes) then
    Except.error "PREDISPATCH/PDPASA is run every 30 minutes."
  else if (determine_last_market_day_end_for_half_hourly run_end).toMin <
      forecasted_end.toMin then
    Except.error "For PREDISPATCH/PDPASA, forecasted_end must be no later than the last market day end."
  else Except.ok ()

/-- `validators.validate_PDPASA_datetime_inputs` (delegates to the
PREDISPATCH validator). -/
def validate_PDPASA_datetime_inputs
    (run_start run_end forecasted_start forecasted_end : Dt) : Except String Unit :=
  validate_PREDISPATCH_datetime_inputs run_start run_end forecasted_start forecasted_end

/-- `validators.validate_STPASA_datetime_inputs`. -/
def validate_STPASA_datetime_inputs
    (run_start run_end forecasted_start forecasted_end : Dt) : Except String Unit :=
  if ¬(run_start.minute = 0 ∧ run_end.minute = 0) then
    Except.error "ST PASA run_start and run_end must be on the hour"
  else if ¬(forecasted_start.minute ∈ halfHourlyAcceptableMinutes ∧
      forecasted_end.minute ∈ halfHourlyAcceptableMinutes) then
    Except.error "ST PASA forecasts are provided for every half hour"
  else if forecasted_start.toMin <
      ((determine_last_market_day_end_for_half_hourly run_start).addMinutes 30).toMin then
    Except.error "For ST PASA, forecasted_start must be no earlier than the bound"
  else if ((determine_last_market_day_end_for_half_hourly run_end).addDays 6).toMin <
      forecasted_end.toMin then
    Except.error "For ST PASA, forecasted_end must be no later than the bound"
  else Except.ok ()

/-- `validators.validate_MTPASA_datetime_inputs` (`run_end.replace(year=...)`
with the explicit Feb-29 clamp of the source). -/
def validate_MTPASA_datetime_inputs
    (run_start run_end forecasted_start forecasted_end : Dt) : Except String Unit :=
  if ¬((forecasted_start.hour = 0 ∧ forecasted_start.minute = 0) ∧
      (forecasted_end.hour = 0 ∧ forecasted_end.minute = 0)) then
    Except.error "Results for MT PASA reported for each day."
  else
    let plus_two_years :=
      if run_end.month = 2 ∧ run_end.day = 29 then
        { run_end with year := run_end.year + 2, day := 28 }
      else { run_end with year := run_end.year + 2 }
    let check_end_date := plus_two_years.addDays 16
    if check_end_date.toMin < forecasted_end.toMin then
      Except.error "For MT PASA, forecasted_end must be no later than the bound"
    else Except.ok ()

/-! ## Embedding of `nemseer/forecast_type/run_time_generators.py` -/

/-- `run_time_generators._determine_valid_earliest_run_for_PD`. -/
def determine_valid_earliest_run_for_PD (forecasted_dt : Dt) : Dt :=
  let run_1300 :=
    if 4 < forecasted_dt.hour ∨ (forecasted_dt.hour = 4 ∧ 0 < forecasted_dt.minute) then
      forecasted_dt.addDays (-1)
    else forecasted_dt.addDays (-2)
  ⟨run_1300.year, run_1300.month, run_1300.day, 13, 0⟩

/-- `run_time_generators._determine_valid_latest_run_for_STPASA`. -/
def determine_valid_latest_run_for_STPASA (forecasted_dt : Dt) : Dt :=
  let run_1400 :=
    if 4 < forecasted_dt.hour ∨ (forecasted_dt.hour = 4 ∧ 0 < forecasted_dt.minute) then
      forecasted_dt.addDays (-1)
    else forecasted_dt.addDays (-2)
  ⟨run_1400.year, run_1400.month, run_1400.day, 14, 0⟩

/-- `run_time_generators._generate_P5MIN_runtimes`. -/
def generate_P5MIN_runtimes (forecasted_start forecasted_end : Dt) :
    Except String (Dt × Dt) :=
  let run_start := forecasted_start.addMinutes (-55)
  let run_end := forecasted_end
  (validate_P5MIN_datetime_inputs run_start run_end forecasted_start forecasted_end).map
    (fun _ => (run_start, run_end))

/-- `run_time_generators._generate_PREDISPATCH_runtimes`. -/
def generate_PREDISPATCH_runtimes (forecasted_start forecasted_end : Dt) :
    Except String (Dt × Dt) :=
  let run_start := determine_valid_earliest_run_for_PD forecasted_start
  let run_end := forecasted_end
  (validate_PREDISPATCH_datetime_inputs run_start run_end forecasted_start
    forecasted_end).map (fun _ => (run_start, run_end))

/-- `run_time_generators._generate_PDPASA_runtimes` (delegates to the
PREDISPATCH generator). -/
def generate_PDPASA_runtimes (forecasted_start forecasted_end : Dt) :
    Except String (Dt × Dt) :=
  generate_PREDISPATCH_runtimes forecasted_start forecasted_end

/-- `run_time_generators._generate_STPASA_runtimes`. -/
def generate_STPASA_runtimes (forecasted_start forecasted_end : Dt) :
    Except String (Dt × Dt) :=
  let run_start := (determine_valid_latest_run_for_STPASA forecasted_start).addDays (-6)
  let run_end := determine_valid_latest_run_for_STPASA forecasted_end
  (validate_STPASA_datetime_inputs run_start run_end forecasted_start
    forecasted_end).map (fun _ => (run_start, run_end))

/-- `run_time_generators._generate_MTPASA_runtimes`
(`forecasted_start.replace(year=...)` with the explicit Feb-29 clamp). -/
def generate_MTPASA_runtimes (forecasted_start forecasted_end : Dt) :
    Except String (Dt × Dt) :=
  let minus_two_years :=
    if forecasted_start.month = 2 ∧ forecasted_start.day = 29 then
      { forecasted_start with year := forecasted_start.year - 2, day := 28 }
    else { forecasted_start with year := forecasted_start.year - 2 }
  let run_start := minus_two_years.addDays (-16)
  let run_end := forecasted_end.addDays (-6)
  (validate_MTPASA_datetime_inputs run_start run_end forecasted_start
    forecasted_end).map (fun _ => (run_start, run_end))

/-- `run_time_generators.generate_runtimes` at datetime level (the source
parses its string arguments with `_dt_converter` and formats the result back
with `strftime`, both the identity at minute resolution on the canonical
zero-padded format, for which the source's string chronology comparison also
agrees with datetime comparison). -/
def generate_runtimes_dt (forecasted_start forecasted_end : Dt) (forecast_type : String) :
    Except String (Dt × Dt) :=
  if forecast_type ∉ FORECAST_TYPES then
    Except.error "Forecast type should be one of FORECAST_TYPES"
  else if forecasted_end.toMin < forecasted_start.toMin then
    Except.error "Forecasted end datetime must be greater than or equal to forecasted start datetime."
  else if forecast_type = "P5MIN" then
    generate_P5MIN_runtimes forecasted_start forecasted_end
  else if forecast_type = "PREDISPATCH" then
    generate_PREDISPATCH_runtimes forecasted_start forecasted_end
  else if forecast_type = "PDPASA" then
    generate_PDPASA_runtimes forecasted_start forecasted_end
  else if forecast_type = "STPASA" then
    generate_STPASA_runtimes forecasted_start forecasted_end
  else
    generate_MTPASA_runtimes forecasted_start forecasted_end

/-! ## Claim theorems: validators -/

theorem mem_p5_iff (m : Int) (h0 : 0 ≤ m) (h59 : m ≤ 59) :
    m ∈ p5minAcceptableMinutes ↔ m % 5 = 0 := by
  simp only [p5minAcceptableMinutes, List.mem_cons, List.not_mem_nil, or_false]
  omega

/-- C3: `validate_P5MIN_datetime_inputs` raises whenever some input minute is
not a multiple of 5, and otherwise raises exactly when `forecasted_end`
exceeds `run_end + 55 minutes`; in particular `run_end + 55 minutes` is
accepted and anything later (such as `run_end + 56 minutes`, whose minute is
in any case misaligned) is rejected. -/
theorem claim_C3 (run_start run_end forecasted_start forecasted_end : Dt)
    (h1 : run_start.Valid) (h2 : run_end.Valid) (h3 : forecasted_start.Valid)
    (h4 : forecasted_end.Valid) :
    (validate_P5MIN_datetime_inputs run_start run_end forecasted_start forecasted_end =
        Except.ok ()) ↔
      (run_start.minute % 5 = 0 ∧ run_end.minute % 5 = 0 ∧
        forecasted_start.minute % 5 = 0 ∧ forecasted_end.minute % 5 = 0 ∧
        forecasted_end.toMin ≤ (run_end.addMinutes 55).toMin) := by
  obtain ⟨-, -, -, -, -, -, a1, a2⟩ := h1
  obtain ⟨-, -, -, -, -, -, b1, b2⟩ := h2
  obtain ⟨-, -, -, -, -, -, c1, c2⟩ := h3
  obtain ⟨-, -, -, -, -, -, d1, d2⟩ := h4
  rw [show validate_P5MIN_datetime_inputs run_start run_end forecasted_start
      forecasted_end =
    (if ¬(run_start.minute ∈ p5minAcceptableMinutes ∧
          run_end.minute ∈ p5minAcceptableMinutes ∧
          forecasted_start.minute ∈ p5minAcceptableMinutes ∧
          forecasted_end.minute ∈ p5minAcceptableMinutes) then
      Except.error "P5MIN is run every 5 minutes."
    else if (run_end.addMinutes 55).toMin < forecasted_end.toMin then
      Except.error "For P5MIN, forecasted_end must be within 55 minutes of run_end."
    else Except.ok ()) from rfl]
  constructor
  · intro hok
    split_ifs at hok with hA hB
    push_neg at hA
    rw [mem_p5_iff _ a1 a2, mem_p5_iff _ b1 b2, mem_p5_iff _ c1 c2,
      mem_p5_iff _ d1 d2] at hA
    exact ⟨hA.1, hA.2.1, hA.2.2.1, hA.2.2.2, by omega⟩
  · rintro ⟨m1, m2, m3, m4, h5⟩
    rw [if_neg, if_neg]
    · omega
    · exact not_not_intro ⟨(mem_p5_iff _ a1 a2).mpr m1, (mem_p5_iff _ b1 b2).mpr m2,
        (mem_p5_iff _ c1 c2).mpr m3, (mem_p5_iff _ d1 d2).mpr m4⟩

theorem claim_C3_witness :
    validate_P5MIN_datetime_inputs ⟨2021, 1, 1, 0, 0⟩ ⟨2021, 1, 1, 12, 0⟩
      ⟨2021, 1, 1, 0, 0⟩ ⟨2021, 1, 1, 12, 55⟩ = Except.ok () :=
  (claim_C3 ⟨2021, 1, 1, 0, 0⟩ ⟨2021, 1, 1, 12, 0⟩ ⟨2021, 1, 1, 0, 0⟩
      ⟨2021, 1, 1, 12, 55⟩ (by decide) (by decide) (by decide) (by decide)).mpr
    (by decide)

theorem mem_halfHourly_iff (m : Int) :
    m ∈ halfHourlyAcceptableMinutes ↔ (m = 0 ∨ m = 30) := by
  simp [halfHourlyAcceptableMinutes]

/-- C4: the PREDISPATCH and PDPASA validators enforce the identical rule:
all four minutes must be 0 or 30 and `forecasted_end` must not exceed the
last-tradeable-day boundary derived from `run_end`, which is 04:00 two
calendar days after `run_end` when its hour is at least 13 and 04:00 one
calendar day after it otherwise; any violation raises and otherwise nothing
is raised. -/
theorem claim_C4 :
    (∀ rs re fs fe : Dt,
      validate_PDPASA_datetime_inputs rs re fs fe =
        validate_PREDISPATCH_datetime_inputs rs re fs fe) ∧
    (∀ rs re fs fe : Dt,
      (validate_PREDISPATCH_datetime_inputs rs re fs fe = Except.ok ()) ↔
        ((rs.minute = 0 ∨ rs.minute = 30) ∧ (re.minute = 0 ∨ re.minute = 30) ∧
          (fs.minute = 0 ∨ fs.minute = 30) ∧ (fe.minute = 0 ∨ fe.minute = 30) ∧
          fe.toMin ≤ (determine_last_market_day_end_for_half_hourly re).toMin)) ∧
    (∀ re : Dt, determine_last_market_day_end_for_half_hourly re =
      if 13 ≤ re.hour then
        ⟨(re.addDays 2).year, (re.addDays 2).month, (re.addDays 2).day, 4, 0⟩
      else
        ⟨(re.addDays 1).year, (re.addDays 1).month, (re.addDays 1).day, 4, 0⟩) := by
  refine ⟨fun rs re fs fe => rfl, ?_, ?_⟩
  · intro rs re fs fe
    constructor
    · intro hok
      unfold validate_PREDISPATCH_datetime_inputs at hok
      split_ifs at hok with hA hB
      push_neg at hA
      rw [mem_halfHourly_iff, mem_halfHourly_iff, mem_halfHourly_iff,
        mem_halfHourly_iff] at hA
      exact ⟨hA.1, hA.2.1, hA.2.2.1, hA.2.2.2, by omega⟩
    · rintro ⟨m1, m2, m3, m4, h5⟩
      rw [validate_PREDISPATCH_datetime_inputs, if_neg, if_neg]
      · omega
      · exact not_not_intro ⟨(mem_halfHourly_iff _).mpr m1, (mem_halfHourly_iff _).mpr m2,
          (mem_halfHourly_iff _).mpr m3, (mem_halfHourly_iff _).mpr m4⟩
  · intro re
    simp only [determine_last_market_day_end_for_half_hourly]
    split_ifs with h <;> rfl

/-- `validate_MTPASA_datetime_inputs` with its `let` bindings inlined. -/
theorem validate_MTPASA_eq (rs re fs fe : Dt) :
    validate_MTPASA_datetime_inputs rs re fs fe =
      if ¬((fs.hour = 0 ∧ fs.minute = 0) ∧ (fe.hour = 0 ∧ fe.minute = 0)) then
        Except.error "Results for MT PASA reported for each day."
      else if ((if re.month = 2 ∧ re.day = 29 then
            ({ re with year := re.year + 2, day := 28 } : Dt)
          else { re with year := re.year + 2 }).addDays 16).toMin < fe.toMin then
        Except.error "For MT PASA, forecasted_end must be no later than the bound"
      else Except.ok () := rfl

/-- C5: the MTPASA validator accepts exactly when `forecasted_start` and
`forecasted_end` are at 00:00 and `forecasted_end` is no later than
`run_end` plus two years (clamping Feb 29 to Feb 28) plus 16 days;
`run_start` and `run_end` are not otherwise constrained.  At
`run_end = 2020/02/29`, `forecasted_end = 2022/03/16` passes and
`2022/03/17` raises. -/
theorem claim_C5 :
    (∀ rs re fs fe : Dt,
      (validate_MTPASA_datetime_inputs rs re fs fe = Except.ok ()) ↔
        (fs.hour = 0 ∧ fs.minute = 0 ∧ fe.hour = 0 ∧ fe.minute = 0 ∧
          fe.toMin ≤ ((if re.month = 2 ∧ re.day = 29 then
              ({ re with year := re.year + 2, day := 28 } : Dt)
            else { re with year := re.year + 2 }).addDays 16).toMin)) ∧
    validate_MTPASA_datetime_inputs ⟨2020, 1, 1, 0, 0⟩ ⟨2020, 2, 29, 0, 0⟩
      ⟨2020, 3, 1, 0, 0⟩ ⟨2022, 3, 16, 0, 0⟩ = Except.ok () ∧
    validate_MTPASA_datetime_inputs ⟨2020, 1, 1, 0, 0⟩ ⟨2020, 2, 29, 0, 0⟩
      ⟨2020, 3, 1, 0, 0⟩ ⟨2022, 3, 17, 0, 0⟩ =
      Except.error "For MT PASA, forecasted_end must be no later than the bound" := by
  refine ⟨?_, by rfl, by rfl⟩
  intro rs re fs fe
  rw [validate_MTPASA_eq]
  constructor
  · intro hok
    split_ifs at hok with hA hB hC
    · push_neg at hA
      refine ⟨hA.1.1, hA.1.2, hA.2.1, hA.2.2, ?_⟩
      rw [if_pos hB]
      omega
    · push_neg at hA
      refine ⟨hA.1.1, hA.1.2, hA.2.1, hA.2.2, ?_⟩
      rw [if_neg hB]
      omega
  · rintro ⟨h1, h2, h3, h4, h5⟩
    rw [if_neg (not_not_intro ⟨⟨h1, h2⟩, h3, h4⟩), if_neg (by omega)]

/-! ## Claim theorems: filename construction and table enumeration -/

/-- C7: the constructed filename is
`PUBLIC_DVD_{TYPE}_{TABLE}_{YYYY}{MM}010000` with the month zero-padded to
two digits, except that for forecast type PREDISPATCH the underscore before
the table is omitted for every table other than MNSPBIDTRK; in particular
`(2021, 2, "STPASA", "REGIONSOLUTION")` yields exactly
`PUBLIC_DVD_STPASA_REGIONSOLUTION_202102010000`. -/
theorem claim_C7 :
    (∀ (y m : Int) (ft t : String),
      construct_sqlloader_filename y m ft t =
        if ft = "PREDISPATCH" ∧ t ≠ "MNSPBIDTRK" then
          "PUBLIC_DVD_" ++ ft ++ t ++ "_" ++ toString y ++ rjust2 m ++ "010000"
        else
          "PUBLIC_DVD_" ++ ft ++ "_" ++ t ++ "_" ++ toString y ++ rjust2 m ++ "010000") ∧
    construct_sqlloader_filename 2021 2 "STPASA" "REGIONSOLUTION" =
      "PUBLIC_DVD_STPASA_REGIONSOLUTION_202102010000" := by
  constructor
  · intro y m ft t
    simp only [construct_sqlloader_filename]
    split_ifs with h
    · simp [String.append_assoc]
    · simp [String.append_assoc]
  · rfl

/-- C6: a logical table marked as enumerated with count `N` is removed from
the request and replaced by the `N` physical names `name1 .. nameN` before
filenames are built; requesting `CONSTRAINTSOLUTION` for `P5MIN` over a
one-month window yields exactly the 4 `CONSTRAINTSOLUTION1..4` filenames. -/
theorem claim_C6 :
    (∀ (tables : List String) (t : String) (n : Nat), t ∈ tables →
      enumerate_tables tables t n =
        tables.erase t ++ (List.range n).map (fun i => t ++ toString (i + 1))) ∧
    (∀ tables : List String, "CONSTRAINTSOLUTION" ∈ tables →
      applyEnumeratedTables "P5MIN" tables =
        tables.erase "CONSTRAINTSOLUTION" ++
          ["CONSTRAINTSOLUTION1", "CONSTRAINTSOLUTION2", "CONSTRAINTSOLUTION3",
            "CONSTRAINTSOLUTION4"]) ∧
    generate_sqlloader_filenames ⟨2021, 1, 31, 23, 0⟩ ⟨2021, 2, 1, 0, 0⟩ "P5MIN"
      ["CONSTRAINTSOLUTION"] =
      [((2021, 1, "CONSTRAINTSOLUTION1"), "PUBLIC_DVD_P5MIN_CONSTRAINTSOLUTION1_202101010000"),
       ((2021, 1, "CONSTRAINTSOLUTION2"), "PUBLIC_DVD_P5MIN_CONSTRAINTSOLUTION2_202101010000"),
       ((2021, 1, "CONSTRAINTSOLUTION3"), "PUBLIC_DVD_P5MIN_CONSTRAINTSOLUTION3_202101010000"),
       ((2021, 1, "CONSTRAINTSOLUTION4"), "PUBLIC_DVD_P5MIN_CONSTRAINTSOLUTION4_202101010000")] := by
  refine ⟨fun tables t n _ => rfl, ?_, by rfl⟩
  intro tables hmem
  simp +decide only [applyEnumeratedTables, ENUMERATED_TABLES, List.foldl]
  rw [if_pos hmem]
  rfl

theorem claim_C6_witness :
    enumerate_tables ["REGIONDISPATCH", "testing"] "testing" 2 =
      ["REGIONDISPATCH", "testing1", "testing2"] :=
  (claim_C6.1 ["REGIONDISPATCH", "testing"] "testing" 2 (by decide)).trans (by rfl)

/-! ## Claim C2: derivation and validation are mutually consistent -/

theorem ofMin_minute (t : Int) : (ofMin t).minute = t % 60 := by
  simp only [ofMin]
  omega

theorem ofMin_hour_bounds (t : Int) : 0 ≤ (ofMin t).hour ∧ (ofMin t).hour ≤ 23 := by
  simp only [ofMin]
  omega

theorem ofMin_dayFields (t : Int) :
    toDays (ofMin t).year (ofMin t).month (ofMin t).day = t / 1440 :=
  (ofDays_spec (t / 1440)).2

theorem addMinutes_toMin (x : Dt) (k : Int) : (x.addMinutes k).toMin = x.toMin + k :=
  ofMin_toMin _

theorem addDays_toMin (x : Dt) (k : Int) : (x.addDays k).toMin = x.toMin + 1440 * k :=
  ofMin_toMin _

theorem toMin_emod60 (x : Dt) (h1 : 0 ≤ x.minute) (h2 : x.minute ≤ 59) :
    x.toMin % 60 = x.minute := by
  simp only [Dt.toMin]
  omega

/-- The 04:00-of-a-shifted-date construction used by
`_determine_last_market_day_end_for_half_hourly`, in minute counts. -/
theorem mk_toMin (Y M D H Mi : Int) :
    (⟨Y, M, D, H, Mi⟩ : Dt).toMin = 1440 * toDays Y M D + 60 * H + Mi := rfl

theorem dateAtHM_toMin (x : Dt) (k H M : Int) :
    ((⟨(x.addDays k).year, (x.addDays k).month, (x.addDays k).day, H, M⟩ : Dt).toMin =
      1440 * ((x.toMin + 1440 * k) / 1440) + 60 * H + M) := by
  have h := ofMin_dayFields (x.toMin + 1440 * k)
  rw [mk_toMin]
  simp only [Dt.addDays]
  rw [h]

theorem lastMarketDayEnd_toMin (dt : Dt) :
    (determine_last_market_day_end_for_half_hourly dt).toMin =
      if 13 ≤ dt.hour then 1440 * ((dt.toMin + 2880) / 1440) + 240
      else 1440 * ((dt.toMin + 1440) / 1440) + 240 := by
  unfold determine_last_market_day_end_for_half_hourly
  split_ifs with h
  · have := dateAtHM_toMin dt 2 4 0
    simpa using this
  · have := dateAtHM_toMin dt 1 4 0
    simpa using this

/-- P5MIN: the derived run window passes the P5MIN validator for any
5-minute-aligned forecasted window. -/
theorem gen_P5MIN_validates (fs fe : Dt) (hfs : fs.Valid) (hfe : fe.Valid)
    (h1 : fs.minute % 5 = 0) (h2 : fe.minute % 5 = 0) :
    validate_P5MIN_datetime_inputs (fs.addMinutes (-55)) fe fs fe = Except.ok () := by
  obtain ⟨-, -, -, -, -, -, a1, a2⟩ := hfs
  obtain ⟨-, -, -, -, -, -, b1, b2⟩ := hfe
  have hmm : (fs.addMinutes (-55)).minute = (fs.toMin + -55) % 60 := ofMin_minute _
  have hfsmod := toMin_emod60 fs a1 a2
  have hfemod := toMin_emod60 fe b1 b2
  have hA : (fs.addMinutes (-55)).minute ∈ p5minAcceptableMinutes := by
    rw [hmm, mem_p5_iff _ (by omega) (by omega)]
    omega
  have hB : fs.minute ∈ p5minAcceptableMinutes := (mem_p5_iff _ a1 a2).mpr h1
  have hC : fe.minute ∈ p5minAcceptableMinutes := (mem_p5_iff _ b1 b2).mpr h2
  unfold validate_P5MIN_datetime_inputs
  rw [if_neg (not_not_intro ⟨hA, hC, hB, hC⟩), if_neg]
  rw [addMinutes_toMin]
  omega

/-- PREDISPATCH/PDPASA: the derived run window passes the validator for any
half-hour-aligned forecasted window. -/
theorem gen_PREDISPATCH_validates (fs fe : Dt) (hfs : fs.Valid) (hfe : fe.Valid)
    (h1 : fs.minute = 0 ∨ fs.minute = 30) (h2 : fe.minute = 0 ∨ fe.minute = 30) :
    validate_PREDISPATCH_datetime_inputs (determine_valid_earliest_run_for_PD fs) fe
      fs fe = Except.ok () := by
  obtain ⟨-, -, -, -, -, -, -, -⟩ := hfs
  obtain ⟨-, -, -, -, fh1, fh2, fm1, fm2⟩ := hfe
  have hrs : (determine_valid_earliest_run_for_PD fs).minute = 0 := by
    unfold determine_valid_earliest_run_for_PD
    split_ifs <;> rfl
  have hbound : fe.toMin ≤ (determine_last_market_day_end_for_half_hourly fe).toMin := by
    rw [lastMarketDayEnd_toMin]
    have : fe.toMin % 1440 = 60 * fe.hour + fe.minute := by
      simp only [Dt.toMin]; omega
    split_ifs with h <;> omega
  unfold validate_PREDISPATCH_datetime_inputs
  rw [if_neg (not_not_intro ⟨by rw [hrs]; exact (mem_halfHourly_iff _).mpr (Or.inl rfl),
    (mem_halfHourly_iff _).mpr h2, (mem_halfHourly_iff _).mpr h1,
    (mem_halfHourly_iff _).mpr h2⟩), if_neg (by omega)]

theorem ofMin_hour_eq (t : Int) : (ofMin t).hour = t % 1440 / 60 := rfl

/-- STPASA: the derived run window passes the STPASA validator for any
half-hour-aligned forecasted window. -/
theorem gen_STPASA_validates (fs fe : Dt) (hfs : fs.Valid) (hfe : fe.Valid)
    (h1 : fs.minute = 0 ∨ fs.minute = 30) (h2 : fe.minute = 0 ∨ fe.minute = 30) :
    validate_STPASA_datetime_inputs
      ((determine_valid_latest_run_for_STPASA fs).addDays (-6))
      (determine_valid_latest_run_for_STPASA fe) fs fe = Except.ok () := by
  obtain ⟨-, -, -, -, ah1, ah2, am1, am2⟩ := hfs
  obtain ⟨-, -, -, -, bh1, bh2, bm1, bm2⟩ := hfe
  have hfsr : fs.toMin % 1440 = 60 * fs.hour + fs.minute := by
    simp only [Dt.toMin]; omega
  have hfer : fe.toMin % 1440 = 60 * fe.hour + fe.minute := by
    simp only [Dt.toMin]; omega
  have hArs : (determine_valid_latest_run_for_STPASA fs).toMin =
      1440 * ((fs.toMin + 1440 *
        (if 4 < fs.hour ∨ (fs.hour = 4 ∧ 0 < fs.minute) then (-1 : Int) else -2)) / 1440) +
        840 := by
    unfold determine_valid_latest_run_for_STPASA
    split_ifs with h
    · simpa using dateAtHM_toMin fs (-1) 14 0
    · simpa using dateAtHM_toMin fs (-2) 14 0
  have hAre : (determine_valid_latest_run_for_STPASA fe).toMin =
      1440 * ((fe.toMin + 1440 *
        (if 4 < fe.hour ∨ (fe.hour = 4 ∧ 0 < fe.minute) then (-1 : Int) else -2)) / 1440) +
        840 := by
    unfold determine_valid_latest_run_for_STPASA
    split_ifs with h
    · simpa using dateAtHM_toMin fe (-1) 14 0
    · simpa using dateAtHM_toMin fe (-2) 14 0
  have hre_min : (determine_valid_latest_run_for_STPASA fe).minute = 0 := by
    unfold determine_valid_latest_run_for_STPASA
    split_ifs <;> rfl
  have hre_hour : (determine_valid_latest_run_for_STPASA fe).hour = 14 := by
    unfold determine_valid_latest_run_for_STPASA
    split_ifs <;> rfl
  have hrs_toMin : ((determine_valid_latest_run_for_STPASA fs).addDays (-6)).toMin =
      (determine_valid_latest_run_for_STPASA fs).toMin - 8640 := by
    rw [addDays_toMin]; ring
  have hrs_min : ((determine_valid_latest_run_for_STPASA fs).addDays (-6)).minute = 0 := by
    simp only [Dt.addDays, ofMin_minute]
    omega
  have hrs_hour : ((determine_valid_latest_run_for_STPASA fs).addDays (-6)).hour = 14 := by
    simp only [Dt.addDays, ofMin_hour_eq]
    omega
  have hchk3 : ¬(fs.toMin <
      ((determine_last_market_day_end_for_half_hourly
        ((determine_valid_latest_run_for_STPASA fs).addDays (-6))).addMinutes 30).toMin) := by
    rw [addMinutes_toMin, lastMarketDayEnd_toMin, if_pos (by rw [hrs_hour]; norm_num)]
    rw [hrs_toMin, hArs]
    split_ifs with h <;> omega
  have hchk4 : ¬(((determine_last_market_day_end_for_half_hourly
      (determine_valid_latest_run_for_STPASA fe)).addDays 6).toMin < fe.toMin) := by
    rw [addDays_toMin, lastMarketDayEnd_toMin, if_pos (by rw [hre_hour]; norm_num)]
    rw [hAre]
    split_ifs with h <;> omega
  unfold validate_STPASA_datetime_inputs
  rw [if_neg (not_not_intro ⟨hrs_min, hre_min⟩),
    if_neg (not_not_intro ⟨(mem_halfHourly_iff _).mpr h1, (mem_halfHourly_iff _).mpr h2⟩),
    if_neg hchk3, if_neg hchk4]

theorem dbmB_ge (l1 l2 : Bool) (m : Int) :
    daysBeforeMonthB l1 m - 1 ≤ daysBeforeMonthB l2 m := by
  unfold daysBeforeMonthB
  split_ifs <;> omega

/-- A date two calendar years later (with any day at most one smaller, as
with the Feb-29 clamp) is never earlier. -/
theorem toDays_two_years_later (y m d d2 : Int) (hd : d - 1 ≤ d2) :
    toDays y m d ≤ toDays (y + 2) m d2 := by
  have s1 := daysBeforeYear_succ y
  have s2 := daysBeforeYear_succ (y + 1)
  have hn : y + 1 + 1 = y + 2 := by ring
  rw [hn] at s2
  have hdb := dbmB_ge (isLeap y) (isLeap (y + 2)) m
  simp only [toDays, daysBeforeMonth]
  cases hly : isLeap y <;> cases hly1 : isLeap (y + 1) <;>
    simp only [hly, hly1] at s1 s2 hdb <;> simp at s1 s2 <;> omega

/-- MTPASA: the derived run window passes the MTPASA validator for any
day-aligned forecasted window. -/
theorem gen_MTPASA_validates (fs fe : Dt) (hfs : fs.Valid) (hfe : fe.Valid)
    (h1 : fs.hour = 0) (h2 : fs.minute = 0) (h3 : fe.hour = 0) (h4 : fe.minute = 0) :
    validate_MTPASA_datetime_inputs
      ((if fs.month = 2 ∧ fs.day = 29 then
          ({ fs with year := fs.year - 2, day := 28 } : Dt)
        else { fs with year := fs.year - 2 }).addDays (-16))
      (fe.addDays (-6)) fs fe = Except.ok () := by
  obtain ⟨-, -, -, -, -, -, bm1, bm2⟩ := hfe
  rw [validate_MTPASA_eq, if_neg (not_not_intro ⟨⟨h1, h2⟩, h3, h4⟩), if_neg]
  have hfetoMin : fe.toMin = 1440 * toDays fe.year fe.month fe.day := by
    simp only [Dt.toMin, h3, h4]; ring
  have hday : toDays (fe.addDays (-6)).year (fe.addDays (-6)).month
      (fe.addDays (-6)).day = toDays fe.year fe.month fe.day - 6 := by
    simp only [Dt.addDays]
    rw [ofMin_dayFields]
    omega
  have hhm : (fe.addDays (-6)).hour = 0 ∧ (fe.addDays (-6)).minute = 0 := by
    simp only [Dt.addDays, ofMin_hour_eq, ofMin_minute]
    constructor <;> omega
  have hvday := ofMin_valid (fe.toMin + 1440 * (-6))
  obtain ⟨vm1, vm2, vd1, vd2, -⟩ := hvday
  set g := fe.addDays (-6) with hg
  have hplus : toDays g.year g.month g.day ≤
      toDays (g.year + 2) g.month (if g.month = 2 ∧ g.day = 29 then 28 else g.day) := by
    split_ifs with hfeb
    · exact toDays_two_years_later _ _ _ _ (by omega)
    · exact toDays_two_years_later _ _ _ _ (by omega)
  rw [addDays_toMin]
  split_ifs with hfeb
  · simp only [Dt.toMin]
    rw [if_pos hfeb] at hplus
    omega
  · simp only [Dt.toMin]
    rw [if_neg hfeb] at hplus
    omega

/-- The per-forecast-type validator dispatch (the `validator_map` of
`data_compilers._input_datetime_validation` and the pairing used in
`generate_runtimes`). -/
def validatorFor (forecast_type : String) : Dt → Dt → Dt → Dt → Except String Unit :=
  if forecast_type = "P5MIN" then validate_P5MIN_datetime_inputs
  else if forecast_type = "PREDISPATCH" then validate_PREDISPATCH_datetime_inputs
  else if forecast_type = "PDPASA" then validate_PDPASA_datetime_inputs
  else if forecast_type = "STPASA" then validate_STPASA_datetime_inputs
  else validate_MTPASA_datetime_inputs

/-- The timestamp-alignment preconditions of each forecast type (the minute /
hour checks its validator applies to the forecasted inputs). -/
def forecastedAligned (forecast_type : String) (fs fe : Dt) : Prop :=
  if forecast_type = "P5MIN" then fs.minute % 5 = 0 ∧ fe.minute % 5 = 0
  else if forecast_type = "PREDISPATCH" ∨ forecast_type = "PDPASA" ∨
      forecast_type = "STPASA" then
    (fs.minute = 0 ∨ fs.minute = 30) ∧ (fe.minute = 0 ∨ fe.minute = 30)
  else if forecast_type = "MTPASA" then
    fs.hour = 0 ∧ fs.minute = 0 ∧ fe.hour = 0 ∧ fe.minute = 0
  else False

/-- C2: for every forecast type and every forecasted window aligned to that
type's rules with `forecasted_start <= forecasted_end`, run-window derivation
succeeds and the type's validator accepts the derived run window together
with the forecasted window (derivation and validation are mutually
consistent). -/
theorem claim_C2 (forecast_type : String) (fs fe : Dt)
    (hft : forecast_type ∈ FORECAST_TYPES) (hfs : fs.Valid) (hfe : fe.Valid)
    (hal : forecastedAligned forecast_type fs fe) (hle : fs.toMin ≤ fe.toMin) :
    ∃ rs re : Dt,
      generate_runtimes_dt fs fe forecast_type = Except.ok (rs, re) ∧
      validatorFor forecast_type rs re fs fe = Except.ok () := by
  have hmem : forecast_type = "P5MIN" ∨ forecast_type = "PREDISPATCH" ∨
      forecast_type = "PDPASA" ∨ forecast_type = "STPASA" ∨
      forecast_type = "MTPASA" := by
    simpa [FORECAST_TYPES] using hft
  rcases hmem with h | h | h | h | h <;> subst h <;>
    simp only [forecastedAligned, if_pos, if_neg, reduceIte] at hal
  · obtain ⟨a1, a2⟩ := hal
    have hv := gen_P5MIN_validates fs fe hfs hfe a1 a2
    refine ⟨fs.addMinutes (-55), fe, ?_, ?_⟩
    · unfold generate_runtimes_dt generate_P5MIN_runtimes
      rw [if_neg (by decide), if_neg (by omega), if_pos rfl]
      simp only [hv]
      rfl
    · exact hv
  · obtain ⟨a1, a2⟩ := hal
    have hv := gen_PREDISPATCH_validates fs fe hfs hfe a1 a2
    refine ⟨determine_valid_earliest_run_for_PD fs, fe, ?_, ?_⟩
    · unfold generate_runtimes_dt generate_PREDISPATCH_runtimes
      rw [if_neg (by decide), if_neg (by omega), if_neg (by decide), if_pos rfl]
      simp only [hv]
      rfl
    · exact hv
  · obtain ⟨a1, a2⟩ := hal
    have hv := gen_PREDISPATCH_validates fs fe hfs hfe a1 a2
    refine ⟨determine_valid_earliest_run_for_PD fs, fe, ?_, ?_⟩
    · unfold generate_runtimes_dt generate_PDPASA_runtimes generate_PREDISPATCH_runtimes
      rw [if_neg (by decide), if_neg (by omega), if_neg (by decide), if_neg (by decide),
        if_pos rfl]
      simp only [hv]
      rfl
    · exact hv
  · obtain ⟨a1, a2⟩ := hal
    have hv := gen_STPASA_validates fs fe hfs hfe a1 a2
    refine ⟨(determine_valid_latest_run_for_STPASA fs).addDays (-6),
      determine_valid_latest_run_for_STPASA fe, ?_, ?_⟩
    · unfold generate_runtimes_dt generate_STPASA_runtimes
      rw [if_neg (by decide), if_neg (by omega), if_neg (by decide), if_neg (by decide),
        if_neg (by decide), if_pos rfl]
      simp only [hv]
      rfl
    · exact hv
  · obtain ⟨a1, a2, a3, a4⟩ := hal
    have hv := gen_MTPASA_validates fs fe hfs hfe a1 a2 a3 a4
    refine ⟨(if fs.month = 2 ∧ fs.day = 29 then
        ({ fs with year := fs.year - 2, day := 28 } : Dt)
      else { fs with year := fs.year - 2 }).addDays (-16), fe.addDays (-6), ?_, ?_⟩
    · unfold generate_runtimes_dt generate_MTPASA_runtimes
      rw [if_neg (by decide), if_neg (by omega), if_neg (by decide), if_neg (by decide),
        if_neg (by decide), if_neg (by decide)]
      simp only [hv]
      rfl
    · exact hv

theorem claim_C2_witness :
    ∃ rs re : Dt,
      generate_runtimes_dt ⟨2021, 2, 1, 2, 25⟩ ⟨2021, 2, 2, 2, 30⟩ "P5MIN" =
        Except.ok (rs, re) ∧
      validatorFor "P5MIN" rs re ⟨2021, 2, 1, 2, 25⟩ ⟨2021, 2, 2, 2, 30⟩ =
        Except.ok () :=
  claim_C2 "P5MIN" ⟨2021, 2, 1, 2, 25⟩ ⟨2021, 2, 2, 2, 30⟩ (by decide) (by decide)
    (by decide) (by simp [forecastedAligned]) (by decide)

/-! ## Claim C1: month-span resolution -/

theorem addMonths_hour (x : Dt) (n : Int) : (addMonths x n).hour = x.hour := rfl

theorem addMonths_minute (x : Dt) (n : Int) : (addMonths x n).minute = x.minute := rfl

theorem addMonths_day (x : Dt) (n : Int) :
    (addMonths x n).day = min x.day (daysInMonth (addMonths x n).year (addMonths x n).month) :=
  rfl

theorem toMin_same_month_compare (x w : Dt) (hy : x.year = w.year) (hm : x.month = w.month) :
    x.toMin - w.toMin =
      1440 * (x.day - w.day) + 60 * (x.hour - w.hour) + (x.minute - w.minute) := by
  simp only [Dt.toMin, toDays]
  rw [hy, hm]
  ring

/-- The month count computed by `_determine_delta_months` for a valid,
chronological window: the month-index distance, minus one exactly when the
window end is at a month boundary (day 1, 00:00) while the window start is
not. -/
theorem determine_delta_months_eq (s e : Dt) (hs : s.Valid) (he : e.Valid)
    (hle : s.toMin ≤ e.toMin) :
    determine_delta_months s e = monthIndex e - monthIndex s -
      (if e.day = 1 ∧ e.hour = 0 ∧ e.minute = 0 ∧
          ¬(s.day = 1 ∧ s.hour = 0 ∧ s.minute = 0) then 1 else 0) := by
  obtain ⟨sm1, sm2, sd1, sd2, sh1, sh2, smin1, smin2⟩ := hs
  obtain ⟨em1, em2, ed1, ed2, eh1, eh2, emin1, emin2⟩ := he
  have hs2 : s.Valid := ⟨sm1, sm2, sd1, sd2, sh1, sh2, smin1, smin2⟩
  have he2 : e.Valid := ⟨em1, em2, ed1, ed2, eh1, eh2, emin1, emin2⟩
  simp only [determine_delta_months]
  set D := 12 * (e.year - s.year) + (e.month - s.month) with hD
  have hDidx : D = monthIndex e - monthIndex s := by simp only [monthIndex]; omega
  have hD0 : 0 ≤ D := by
    by_contra hneg
    have h1 : monthIndex e < monthIndex s := by omega
    have h2 := toMin_lt_of_monthIndex_lt he2 hs2 h1
    omega
  have hAv := addMonths_valid s D hs2
  obtain ⟨am1, am2, ad1, ad2, -⟩ := hAv
  have hAidx : monthIndex (addMonths s D) = monthIndex e := by
    rw [addMonths_monthIndex]; omega
  have hAym : (addMonths s D).year = e.year ∧ (addMonths s D).month = e.month := by
    simp only [monthIndex] at hAidx
    omega
  have hAh := addMonths_hour s D
  have hAm := addMonths_minute s D
  have hAd := addMonths_day s D
  have hdim := daysInMonth_pos (addMonths s D).year (addMonths s D).month
  have hAdaycases := min_choice s.day (daysInMonth (addMonths s D).year (addMonths s D).month)
  by_cases hc1 : e.toMin < (addMonths s D).toMin
  · rw [if_pos hc1]
    have hD1 : 1 ≤ D := by
      rcases eq_or_lt_of_le hD0 with h0 | h1
      · exfalso
        rw [← h0] at hc1
        rw [addMonths_zero s hs2] at hc1
        omega
      · omega
    have hBv := addMonths_valid s (D - 1) hs2
    obtain ⟨bm1, bm2, -⟩ := hBv
    have hBv2 : (addMonths s (D - 1)).Valid := addMonths_valid s (D - 1) hs2
    have hBidx : monthIndex (addMonths s (D - 1)) = monthIndex e - 1 := by
      rw [addMonths_monthIndex]; omega
    have hBne : (addMonths s (D - 1)).month ≠ e.month := by
      simp only [monthIndex] at hBidx
      omega
    have hBlt : (addMonths s (D - 1)).toMin < e.toMin :=
      toMin_lt_of_monthIndex_lt hBv2 he2 (by omega)
    by_cases hbe : e.day = 1 ∧ e.hour = 0 ∧ e.minute = 0
    · have hsnb : ¬(s.day = 1 ∧ s.hour = 0 ∧ s.minute = 0) := by
        rintro ⟨q1, q2, q3⟩
        have hcomp := toMin_same_month_compare (addMonths s D) e hAym.1 hAym.2
        rw [hAh, hAm] at hcomp
        rw [q1] at hAd
        rw [min_eq_left (by omega)] at hAd
        omega
      rw [if_neg (fun h => h.2.1 hbe), if_pos ⟨hbe.1, hbe.2.1, hbe.2.2, hsnb⟩]
      omega
    · rw [if_pos ⟨hBne, fun h => hbe ⟨h.1, h.2.1, h.2.2⟩, by omega⟩,
        if_neg (fun h => hbe ⟨h.1, h.2.1, h.2.2.1⟩)]
      omega
  · rw [if_neg hc1]
    rw [if_neg (fun h => h.1 hAym.2)]
    by_cases hbe : e.day = 1 ∧ e.hour = 0 ∧ e.minute = 0
    · have hcomp := toMin_same_month_compare (addMonths s D) e hAym.1 hAym.2
      rw [hAh, hAm] at hcomp
      have hAfields : (addMonths s D).day = 1 ∧ s.hour = 0 ∧ s.minute = 0 := by
        omega
      have hsb : s.day = 1 ∧ s.hour = 0 ∧ s.minute = 0 := by
        rcases hAdaycases with h | h <;> rw [h] at hAd
        · exact ⟨by omega, hAfields.2.1, hAfields.2.2⟩
        · exfalso
          omega
      rw [if_neg (fun h => h.2.2.2 hsb)]
      omega
    · rw [if_neg (fun h => hbe ⟨h.1, h.2.1, h.2.2.1⟩)]
      omega

/-- The month span claimed by the spec sentence as stated: the inclusive
month-index range of the window, excluding the trailing month whenever the
window end falls exactly on day 1, 00:00 of a month. -/
def claimedMonthSpan (s e : Dt) : List (Int × Int) :=
  let lo := monthIndex s
  let hi := monthIndex e - (if e.day = 1 ∧ e.hour = 0 ∧ e.minute = 0 then 1 else 0)
  (List.range (hi - lo + 1).toNat).map
    (fun x => ((lo + (x : Int)) / 12, (lo + (x : Int)) % 12 + 1))

/-- The amended month span: the trailing month is excluded exactly when the
window end falls on day 1, 00:00 of a month *and the window start is not
itself at day 1, 00:00 of its month* (when both endpoints sit on the
boundary the code includes the trailing month). -/
def monthSpan (s e : Dt) : List (Int × Int) :=
  let lo := monthIndex s
  let hi := monthIndex e -
    (if e.day = 1 ∧ e.hour = 0 ∧ e.minute = 0 ∧
        ¬(s.day = 1 ∧ s.hour = 0 ∧ s.minute = 0) then 1 else 0)
  (List.range (hi - lo + 1).toNat).map
    (fun x => ((lo + (x : Int)) / 12, (lo + (x : Int)) % 12 + 1))

/-- C1 counterexample: for the window `2021/01/01 00:00 → 2021/02/01 00:00`
(both endpoints exactly on a month boundary), the claimed rule excludes the
trailing month and predicts one month, but `generate_sqlloader_filenames`
enumerates two months (January and February). -/
theorem claim_C1_counterexample :
    (generate_sqlloader_filenames ⟨2021, 1, 1, 0, 0⟩ ⟨2021, 2, 1, 0, 0⟩ "STPASA"
        ["REGIONSOLUTION"]).map (fun kv => (kv.1.1, kv.1.2.1)) =
      [(2021, 1), (2021, 2)] ∧
    claimedMonthSpan ⟨2021, 1, 1, 0, 0⟩ ⟨2021, 2, 1, 0, 0⟩ = [(2021, 1)] ∧
    (generate_sqlloader_filenames ⟨2021, 1, 1, 0, 0⟩ ⟨2021, 2, 1, 0, 0⟩ "STPASA"
        ["REGIONSOLUTION"]).map (fun kv => (kv.1.1, kv.1.2.1)) ≠
      claimedMonthSpan ⟨2021, 1, 1, 0, 0⟩ ⟨2021, 2, 1, 0, 0⟩ :=
  ⟨by rfl, by rfl, by decide⟩

theorem addMonths_year_month (s : Dt) (hm1 : 1 ≤ s.month) (hm2 : s.month ≤ 12) (x : Int) :
    (addMonths s x).year = (monthIndex s + x) / 12 ∧
    (addMonths s x).month = (monthIndex s + x) % 12 + 1 := by
  simp only [addMonths, monthIndex]
  constructor <;> omega

/-- C1 (amended): for a valid chronological window and a non-enumerated
table, `generate_sqlloader_filenames` enumerates exactly the inclusive
month-index range of the window, excluding the trailing month exactly when
the window end is at day 1, 00:00 of a month while the window start is not;
the four boundary examples of the claim resolve to 1, 2, 2 and 14 months. -/
theorem claim_C1 (s e : Dt) (hs : s.Valid) (he : e.Valid) (hle : s.toMin ≤ e.toMin)
    (forecast_type table : String)
    (hne : applyEnumeratedTables forecast_type [table] = [table]) :
    ((generate_sqlloader_filenames s e forecast_type [table]).map Prod.fst =
      (monthSpan s e).map (fun p => (p.1, p.2, table))) ∧
    (generate_sqlloader_filenames ⟨2021, 1, 31, 23, 0⟩ ⟨2021, 2, 1, 0, 0⟩ "STPASA"
      ["REGIONSOLUTION"]).length = 1 ∧
    (generate_sqlloader_filenames ⟨2021, 1, 31, 23, 0⟩ ⟨2021, 2, 1, 1, 0⟩ "STPASA"
      ["REGIONSOLUTION"]).length = 2 ∧
    (generate_sqlloader_filenames ⟨2021, 12, 31, 23, 55⟩ ⟨2022, 1, 6, 1, 0⟩ "STPASA"
      ["REGIONSOLUTION"]).length = 2 ∧
    (generate_sqlloader_filenames ⟨2021, 12, 31, 23, 55⟩ ⟨2023, 1, 6, 1, 0⟩ "STPASA"
      ["REGIONSOLUTION"]).length = 14 := by
  refine ⟨?_, by rfl, by rfl, by rfl, by rfl⟩
  obtain ⟨sm1, sm2, sd1, sd2, sh1, sh2, smin1, smin2⟩ := hs
  have hs2 : s.Valid := ⟨sm1, sm2, sd1, sd2, sh1, sh2, smin1, smin2⟩
  obtain ⟨em1, em2, ed1, ed2, eh1, eh2, emin1, emin2⟩ := he
  have he2 : e.Valid := ⟨em1, em2, ed1, ed2, eh1, eh2, emin1, emin2⟩
  have hk := determine_delta_months_eq s e hs2 he2 hle
  have hidxle : monthIndex s ≤ monthIndex e := by
    by_contra hh
    have := toMin_lt_of_monthIndex_lt he2 hs2 (by omega)
    omega
  have hk0 : 0 ≤ determine_delta_months s e := by
    rw [hk]
    split_ifs with hx
    · rcases lt_or_le (monthIndex s) (monthIndex e) with h | h
      · omega
      · exfalso
        have heq : s.year = e.year ∧ s.month = e.month := by
          simp only [monthIndex] at h hidxle
          omega
        have hcomp := toMin_same_month_compare s e heq.1 heq.2
        have hx1 := hx.1
        have hx2 := hx.2.1
        have hx3 := hx.2.2.1
        exact hx.2.2.2 (by omega)
    · omega
  simp only [generate_sqlloader_filenames, monthSpan]
  rw [hne]
  simp only [List.map_cons, List.map_nil, List.flatten_cons, List.flatten_nil,
    List.append_nil, List.map_map]
  have hlen : (determine_delta_months s e).toNat + 1 =
      (monthIndex e -
        (if e.day = 1 ∧ e.hour = 0 ∧ e.minute = 0 ∧
            ¬(s.day = 1 ∧ s.hour = 0 ∧ s.minute = 0) then 1 else 0) -
        monthIndex s + 1).toNat := by
    omega
  rw [hlen]
  apply List.map_congr_left
  intro a _
  have hym := addMonths_year_month s sm1 sm2 (a : Int)
  simp only [Function.comp_apply]
  rw [hym.1, hym.2]

theorem claim_C1_witness :
    (generate_sqlloader_filenames ⟨2021, 1, 31, 23, 0⟩ ⟨2021, 2, 1, 1, 0⟩ "STPASA"
        ["REGIONSOLUTION"]).map Prod.fst =
      (monthSpan ⟨2021, 1, 31, 23, 0⟩ ⟨2021, 2, 1, 1, 0⟩).map
        (fun p => (p.1, p.2, "REGIONSOLUTION")) :=
  (claim_C1 ⟨2021, 1, 31, 23, 0⟩ ⟨2021, 2, 1, 1, 0⟩ (by decide) (by decide) (by decide)
    "STPASA" "REGIONSOLUTION" (by rfl)).1

/-! ## Claim C10: `_dt_converter` string parsing

CPython `_strptime` compiles the format `%Y/%m/%d %H:%M` to the regex
`(\d\d\d\d)/(1[0-2]|0[1-9]|[1-9])/(3[01]|[12]\d|0[1-9]|[1-9])\s+(2[0-3]|[0-1]\d|\d):([0-5]\d|\d)`
(and appends `:(6[0-1]|[0-5]\d|\d)` for `:%S`), requires the match to consume
the whole string, and then constructs a `datetime`, which re-validates
day-of-month, the year lower bound and (for `%S`) seconds at most 59.  The
regex alternations are longest-first and every alternative is followed by a
non-digit (a separator or end of input checked against trailing digits), so
the backtracking regex is equivalent to the deterministic longest-match
readers below.  ASCII digits and whitespace stand in for Python's unicode
classes. -/

/-- Numeric value of an ASCII digit. -/
def digitVal (c : Char) : Int := (c.toNat : Int) - ('0'.toNat : Int)

/-- `%Y`: exactly four digits. -/
def parseYear : List Char → Option (Int × List Char)
  | c1 :: c2 :: c3 :: c4 :: rest =>
    if c1.isDigit ∧ c2.isDigit ∧ c3.isDigit ∧ c4.isDigit then
      some (1000 * digitVal c1 + 100 * digitVal c2 + 10 * digitVal c3 + digitVal c4, rest)
    else none
  | _ => none

/-- `%m`: `1[0-2]|0[1-9]|[1-9]`. -/
def parseMonth : List Char → Option (Int × List Char)
  | c1 :: c2 :: rest =>
    if c1 = '1' ∧ ('0' ≤ c2 ∧ c2 ≤ '2') then some (10 + digitVal c2, rest)
    else if c1 = '0' ∧ ('1' ≤ c2 ∧ c2 ≤ '9') then some (digitVal c2, rest)
    else if '1' ≤ c1 ∧ c1 ≤ '9' then some (digitVal c1, c2 :: rest)
    else none
  | [c1] => if '1' ≤ c1 ∧ c1 ≤ '9' then some (digitVal c1, []) else none
  | [] => none

/-- `%d`: `3[01]|[12]\d|0[1-9]|[1-9]`. -/
def parseDay : List Char → Option (Int × List Char)
  | c1 :: c2 :: rest =>
    if c1 = '3' ∧ ('0' ≤ c2 ∧ c2 ≤ '1') then some (30 + digitVal c2, rest)
    else if ('1' ≤ c1 ∧ c1 ≤ '2') ∧ c2.isDigit then
      some (10 * digitVal c1 + digitVal c2, rest)
    else if c1 = '0' ∧ ('1' ≤ c2 ∧ c2 ≤ '9') then some (digitVal c2, rest)
    else if '1' ≤ c1 ∧ c1 ≤ '9' then some (digitVal c1, c2 :: rest)
    else none
  | [c1] => if '1' ≤ c1 ∧ c1 ≤ '9' then some (digitVal c1, []) else none
  | [] => none

/-- `%H`: `2[0-3]|[0-1]\d|\d`. -/
def parseHour : List Char → Option (Int × List Char)
  | c1 :: c2 :: rest =>
    if c1 = '2' ∧ ('0' ≤ c2 ∧ c2 ≤ '3') then some (20 + digitVal c2, rest)
    else if ('0' ≤ c1 ∧ c1 ≤ '1') ∧ c2.isDigit then
      some (10 * digitVal c1 + digitVal c2, rest)
    else if c1.isDigit then some (digitVal c1, c2 :: rest)
    else none
  | [c1] => if c1.isDigit then some (digitVal c1, []) else none
  | [] => none

/-- `%M`: `[0-5]\d|\d`. -/
def parseMinuteStr : List Char → Option (Int × List Char)
  | c1 :: c2 :: rest =>
    if ('0' ≤ c1 ∧ c1 ≤ '5') ∧ c2.isDigit then
      some (10 * digitVal c1 + digitVal c2, rest)
    else if c1.isDigit then some (digitVal c1, c2 :: rest)
    else none
  | [c1] => if c1.isDigit then some (digitVal c1, []) else none
  | [] => none

/-- `%S`: `6[0-1]|[0-5]\d|\d`. -/
def parseSecondStr : List Char → Option (Int × List Char)
  | c1 :: c2 :: rest =>
    if c1 = '6' ∧ ('0' ≤ c2 ∧ c2 ≤ '1') then some (60 + digitVal c2, rest)
    else if ('0' ≤ c1 ∧ c1 ≤ '5') ∧ c2.isDigit then
      some (10 * digitVal c1 + digitVal c2, rest)
    else if c1.isDigit then some (digitVal c1, c2 :: rest)
    else none
  | [c1] => if c1.isDigit then some (digitVal c1, []) else none
  | [] => none

/-- A literal character of the format. -/
def parseLit (ch : Char) : List Char → Option (List Char)
  | c :: rest => if c = ch then some rest else none
  | [] => none

/-- A whitespace run in the format matches `\s+`. -/
def parseSpaces : List Char → Option (List Char)
  | c :: rest =>
    if c.isWhitespace then some (rest.dropWhile Char.isWhitespace) else none
  | [] => none

/-- Shared front of both formats: `%Y/%m/%d %H:%M`. -/
def parseCommon (cs : List Char) : Option (Int × Int × Int × Int × Int × List Char) :=
  match parseYear cs with
  | none => none
  | some (y, cs1) =>
    match parseLit '/' cs1 with
    | none => none
    | some cs2 =>
      match parseMonth cs2 with
      | none => none
      | some (mo, cs3) =>
        match parseLit '/' cs3 with
        | none => none
        | some cs4 =>
          match parseDay cs4 with
          | none => none
          | some (d, cs5) =>
            match parseSpaces cs5 with
            | none => none
            | some cs6 =>
              match parseHour cs6 with
              | none => none
              | some (h, cs7) =>
                match parseLit ':' cs7 with
                | none => none
                | some cs8 =>
                  match parseMinuteStr cs8 with
                  | none => none
                  | some (mi, cs9) => some (y, mo, d, h, mi, cs9)

/-- `datetime.strptime(value, "%Y/%m/%d %H:%M")`: full-string match plus the
`datetime` constructor's own validation (year at least 1, day within the
month). -/
def strptimeNoSec (s : String) : Option Dt :=
  match parseCommon s.toList with
  | none => none
  | some (y, mo, d, h, mi, rest) =>
    if rest = [] ∧ 1 ≤ y ∧ d ≤ daysInMonth y mo then some ⟨y, mo, d, h, mi⟩
    else none

/-- `datetime.strptime(value, "%Y/%m/%d %H:%M:%S")`, with the constructor
also rejecting the regex's leap-second values 60 and 61. -/
def strptimeWithSec (s : String) : Option (Dt × Int) :=
  match parseCommon s.toList with
  | none => none
  | some (y, mo, d, h, mi, rest) =>
    match parseLit ':' rest with
    | none => none
    | some rest2 =>
      match parseSecondStr rest2 with
      | none => none
      | some (sec, rest3) =>
        if rest3 = [] ∧ 1 ≤ y ∧ d ≤ daysInMonth y mo ∧ sec ≤ 59 then
          some (⟨y, mo, d, h, mi⟩, sec)
        else none

/-- `nemseer.query._dt_converter`: try the minute format; on failure try the
seconds format and reject a non-zero seconds component (the source raises
inside its inner `try`, so every failure surfaces as the same
`"Datetime invalid."` `ValueError`). -/
def dt_converter (s : String) : Except String Dt :=
  match strptimeNoSec s with
  | some dt => Except.ok dt
  | none =>
    match strptimeWithSec s with
    | some (dt, sec) =>
      if sec ≠ 0 then Except.error "Datetime invalid." else Except.ok dt
    | none => Except.error "Datetime invalid."

/-- C10: a datetime string supplied to the public entry points (both
`Query.initialise` and `generate_runtimes` convert every datetime string
with `_dt_converter`) is accepted exactly when it parses under
`%Y/%m/%d %H:%M`, or parses under `%Y/%m/%d %H:%M:%S` with a seconds
component equal to zero; anything else (including non-zero seconds) raises
`ValueError`. -/
theorem except_isOk_ok (a : Dt) : (Except.ok a : Except String Dt).isOk = true := rfl

theorem except_isOk_error (e : String) :
    (Except.error e : Except String Dt).isOk = false := rfl

theorem claim_C10 :
    (∀ s : String, (dt_converter s).isOk ↔
      ((strptimeNoSec s).isSome ∨ ∃ dt, strptimeWithSec s = some (dt, 0))) ∧
    dt_converter "2021/2/1 2:3" = Except.ok ⟨2021, 2, 1, 2, 3⟩ ∧
    dt_converter "2021/02/01 20:30:00" = Except.ok ⟨2021, 2, 1, 20, 30⟩ ∧
    (dt_converter "2021/02/01 02:03:30").isOk = false ∧
    (dt_converter "2021/02/30 02:03").isOk = false ∧
    (dt_converter "0000/01/01 00:00").isOk = false := by
  refine ⟨?_, by rfl, by rfl, by rfl, by rfl, by rfl⟩
  intro s
  unfold dt_converter
  cases h1 : strptimeNoSec s with
  | some dt => simp [except_isOk_ok]
  | none =>
    cases h2 : strptimeWithSec s with
    | none => simp [except_isOk_error]
    | some p =>
      obtain ⟨dt, sec⟩ := p
      by_cases hsec : sec = 0
      · subst hsec
        dsimp only
        rw [if_neg (by simp)]
        simp [except_isOk_ok]
      · dsimp only
        rw [if_pos hsec]
        simp [except_isOk_error, hsec]

/-! ## Claim C8: Query field stability

`nemseer.query.Query` is embedded with the fields the claim concerns; cache
paths are abstract strings and the processed-query index is an association
list.  Operations that can change the Python object are modelled as
state-passing functions returning the post-state of the query.

In Python, `tables = query.tables` binds the same list object, and
`_enumerate_tables` calls `list.remove`/`list.append` on it in place, so
`generate_sqlloader_filenames(..., self.tables)` (inside
`check_all_raw_data_in_cache`), `ForecastTypeDownloader.from_Query` and
`DataCompiler.from_Query` all rewrite `query.tables` whenever an enumerated
logical table is present in it. -/
structure Query where
  run_start : Dt
  run_end : Dt
  forecasted_start : Dt
  forecasted_end : Dt
  forecast_type : String
  tables : List String
  metadata : List (String × String)
  raw_cache : String
  processed_cache : Option String
  processed_queries : Option (List (String × String))
deriving DecidableEq, Repr

/-- `Query.check_all_raw_data_in_cache`, given the set of cached files:
the Boolean result, paired with the post-state of the query
(`generate_sqlloader_filenames` enumerated `self.tables` in place). -/
def query_check_all_raw_data_in_cache (query : Query) (cached : List String) :
    Bool × Query :=
  let fnames := generate_sqlloader_filenames query.run_start query.run_end
    query.forecast_type query.tables
  ((fnames.map Prod.snd).all (fun f => (f ++ ".parquet") ∈ cached),
    { query with tables := applyEnumeratedTables query.forecast_type query.tables })

/-- `ForecastTypeDownloader.from_Query`: the downloader's `tables`, paired
with the post-state of the query (the enumeration loop mutated the aliased
`query.tables`). -/
def forecastTypeDownloader_from_Query (query : Query) : List String × Query :=
  let tables := applyEnumeratedTables query.forecast_type query.tables
  (tables, { query with tables := tables })

/-- `DataCompiler.from_Query`: the compiler's `raw_tables`, paired with the
post-state of the query.  When the query has no processed cache or no
processed queries (`if query.processed_queries:` is falsy for `None` and for
an empty dict), `raw_tables` aliases `query.tables` and both see the
enumeration; otherwise `raw_tables = list(set(tables) - set(processed))` is
a fresh list (element order is Python-set nondeterministic; the embedding
keeps the original order, which no claim depends on) that stays
unenumerated while `query.tables` is still mutated for every enumerated
table present in `raw_tables`. -/
def dataCompiler_from_Query (query : Query) : List String × Query :=
  match query.processed_cache, query.processed_queries with
  | some _, some pq =>
    if pq = [] then
      let tables := applyEnumeratedTables query.forecast_type query.tables
      (tables, { query with tables := tables })
    else
      let raw0 := query.tables.filter (fun t => ¬(pq.map Prod.fst).contains t)
      let tables := ENUMERATED_TABLES.foldl
        (fun acc p =>
          if query.forecast_type = p.1 then
            p.2.foldl
              (fun acc2 q => if q.1 ∈ raw0 then enumerate_tables acc2 q.1 q.2 else acc2)
              acc
          else acc)
        query.tables
      (raw0, { query with tables := tables })
  | _, _ =>
    let tables := applyEnumeratedTables query.forecast_type query.tables
    (tables, { query with tables := tables })

/-- `Query.find_table_queries_in_processed_cache`, abstracted over the
processed-cache directory contents: each cached file is
`(path, table, metadata-minus-table)`.  When `processed_cache` is `None`
nothing is assigned; otherwise `processed_queries` is set to the matching
table-to-path entries. -/
def find_table_queries_in_processed_cache (query : Query)
    (cacheFiles : List (String × String × List (String × String))) : Query :=
  match query.processed_cache with
  | none => query
  | some _ =>
    let pq := cacheFiles.foldl
      (fun acc f =>
        if f.2.1 ∈ query.tables ∧ f.2.2 = query.metadata then acc ++ [(f.2.1, f.1)]
        else acc)
      []
    { query with processed_queries := some pq }

/-- C8 counterexample: constructing a `ForecastTypeDownloader` from a query
for the enumerated P5MIN table CONSTRAINTSOLUTION rewrites the query's own
`tables` field (Python list aliasing), so a field other than
`processed_queries` does change. -/
theorem claim_C8_counterexample :
    (forecastTypeDownloader_from_Query
      ⟨⟨2021, 1, 1, 0, 0⟩, ⟨2021, 2, 1, 0, 0⟩, ⟨2021, 1, 1, 0, 0⟩, ⟨2021, 2, 1, 0, 0⟩,
        "P5MIN", ["CONSTRAINTSOLUTION"], [], "raw", none, none⟩).2.tables ≠
      ["CONSTRAINTSOLUTION"] := by decide

/-- C8 (amended): after construction the only Query fields any operation
changes are `tables` — which `check_all_raw_data_in_cache`,
`ForecastTypeDownloader.from_Query` and `DataCompiler.from_Query` rewrite in
place to the enumerated physical names when enumerated logical tables are
requested — and `processed_queries`, which only
`find_table_queries_in_processed_cache` populates. -/
theorem claim_C8 :
    (∀ (q : Query) (cached : List String),
      (query_check_all_raw_data_in_cache q cached).2 =
        { q with tables := applyEnumeratedTables q.forecast_type q.tables }) ∧
    (∀ q : Query,
      (forecastTypeDownloader_from_Query q).2 =
        { q with tables := applyEnumeratedTables q.forecast_type q.tables }) ∧
    (∀ q : Query,
      { (dataCompiler_from_Query q).2 with tables := q.tables } = q) ∧
    (∀ (q : Query) (cacheFiles : List (String × String × List (String × String))),
      { find_table_queries_in_processed_cache q cacheFiles with
          processed_queries := q.processed_queries } = q) := by
  refine ⟨fun q cached => rfl, fun q => rfl, ?_, ?_⟩
  · intro q
    unfold dataCompiler_from_Query
    rcases q with ⟨rs, re, fs, fe, ftp, tbl, md, rc, pc, pq⟩
    cases pc <;> cases pq <;> dsimp only <;> try rfl
    split_ifs <;> rfl
  · intro q cacheFiles
    unfold find_table_queries_in_processed_cache
    rcases q with ⟨rs, re, fs, fe, ftp, tbl, md, rc, pc, pq⟩
    cases pc <;> rfl

/-! ## Embedding of `nemseer/data_compilers.py` (claim C9)

`DataCompiler.invalid_or_corrupted_files` reads `.invalid_aemo_files.txt`
from the raw cache (an absent stubfile yields `[]`); the ledger is therefore
a `List String` parameter.  Reading the surviving parquet files and the
datetime filtering are I/O and out of scope: the embedding of
`compile_raw_data` records, per mapped table, the files compilation
proceeds on and whether the partial-exclusion warning was logged. -/

/-- The base captured by `re.match(r"([A-Z]*)[0-9]", table)`: the maximal
run of uppercase letters at the start of the string, provided the next
character is a digit.  (A shorter, backtracked letter prefix would have to
be followed by an uppercase letter, which is not a digit, so only the
maximal prefix can complete the match; `none` when the regex does not
match at all.) -/
def enumBase (s : String) : Option String :=
  let p := s.toList.takeWhile (fun c => decide ('A' ≤ c ∧ c ≤ 'Z'))
  match s.toList.drop p.length with
  | c :: _ => if c.isDigit then some (String.mk p) else none
  | [] => none

/-- Python dict assignment `m[key] = value` on an insertion-ordered
association list: overwrite in place when the key exists, else append. -/
def dictSet (m : List (String × List String)) (key : String) (value : List String) :
    List (String × List String) :=
  if m.any (fun p => decide (p.1 = key)) then
    m.map (fun p => if p.1 = key then (key, value) else p)
  else m ++ [(key, value)]

/-- `table_file_map[map_table_name].extend(filenames_to_map)` under a
key-presence check: extend the existing entry in place, else create it. -/
def dictExtend (m : List (String × List String)) (key : String) (value : List String) :
    List (String × List String) :=
  if m.any (fun p => decide (p.1 = key)) then
    m.map (fun p => if p.1 = key then (key, p.2 ++ value) else p)
  else m ++ [(key, value)]

/-- `nemseer.data_compilers._map_files_to_table`.  Note that
`generate_sqlloader_filenames` enumerates the caller's `tables` list in
place before the `for table in tables` loop runs, so the loop iterates over
the enumerated physical names (`applyEnumeratedTables`). -/
def map_files_to_table (run_start run_end : Dt) (forecast_type : String)
    (tables : List String) : List (String × List String) :=
  let metadata_to_filename :=
    generate_sqlloader_filenames run_start run_end forecast_type tables
  let enumerated_tables :=
    match ENUMERATED_TABLES.find? (fun p => decide (p.1 = forecast_type)) with
    | some p => p.2.map Prod.fst
    | none => []
  (applyEnumeratedTables forecast_type tables).foldl
    (fun table_file_map table =>
      let filenames_to_map :=
        (metadata_to_filename.filter (fun kv => decide (kv.1.2.2 = table))).map Prod.snd
      match enumBase table with
      | some base =>
        if base ∈ enumerated_tables then dictExtend table_file_map base filenames_to_map
        else dictSet table_file_map table filenames_to_map
      | none => dictSet table_file_map table filenames_to_map)
    []

/-- The `ValueError` message raised by `compile_raw_data` when every file of
some table is invalid. -/
def allInvalidMsg : String :=
  "Query failed as all files to be compiled were found to be"
    ++ " invalid/corrupt on previous download. You can force nemseer"
    ++ " to load these files by deleting them from "
    ++ ".invalid_aemo_files.txt"

/-- One iteration of the `for table in file_to_table_map.keys()` loop in
`DataCompiler.compile_raw_data`: `filtered_files` drops the files recorded
in the ledger; an empty result raises (aborting the remaining iterations),
and `len(filtered_files) < len(files)` is the partial-exclusion warning
condition. -/
def compileStep (invalid_files : List String)
    (acc : Except String (List (String × List String × Bool)))
    (entry : String × List String) :
    Except String (List (String × List String × Bool)) :=
  match acc with
  | Except.error e => Except.error e
  | Except.ok done =>
    if entry.2.filter (fun f => decide (f ∉ invalid_files)) = [] then
      Except.error allInvalidMsg
    else
      Except.ok (done ++ [(entry.1, entry.2.filter (fun f => decide (f ∉ invalid_files)),
        decide ((entry.2.filter (fun f => decide (f ∉ invalid_files))).length
          < entry.2.length))])

/-- `DataCompiler.compile_raw_data`, abstracted over the invalid-file
ledger. -/
def compile_raw_data (run_start run_end : Dt) (forecast_type : String)
    (raw_tables : List String) (invalid_files : List String) :
    Except String (List (String × List String × Bool)) :=
  (map_files_to_table run_start run_end forecast_type raw_tables).foldl
    (compileStep invalid_files) (Except.ok [])

theorem compile_foldl_error (invalid_files : List String)
    (L : List (String × List String)) (m : String) :
    List.foldl (compileStep invalid_files) (Except.error m) L = Except.error m := by
  induction L with
  | nil => rfl
  | cons e L ih => exact ih

theorem compile_foldl_ok (invalid_files : List String)
    (L : List (String × List String)) :
    ∀ done : List (String × List String × Bool),
    List.foldl (compileStep invalid_files) (Except.ok done) L =
      if ∀ e ∈ L, e.2.filter (fun f => decide (f ∉ invalid_files)) ≠ [] then
        Except.ok (done ++ L.map (fun e =>
          (e.1, e.2.filter (fun f => decide (f ∉ invalid_files)),
            decide ((e.2.filter (fun f => decide (f ∉ invalid_files))).length
              < e.2.length))))
      else Except.error allInvalidMsg := by
  induction L with
  | nil =>
    intro done
    simp
  | cons e L ih =>
    intro done
    rw [List.foldl_cons]
    by_cases he : e.2.filter (fun f => decide (f ∉ invalid_files)) = []
    · have hstep : compileStep invalid_files (Except.ok done) e = Except.error allInvalidMsg := by
        simp only [compileStep, if_pos he]
      rw [hstep, compile_foldl_error]
      rw [if_neg]
      intro hall
      exact hall e (List.mem_cons_self e L) he
    · have hstep : compileStep invalid_files (Except.ok done) e =
          Except.ok (done ++ [(e.1, e.2.filter (fun f => decide (f ∉ invalid_files)),
            decide ((e.2.filter (fun f => decide (f ∉ invalid_files))).length
              < e.2.length))]) := by
        simp only [compileStep, if_neg he]
      rw [hstep, ih]
      by_cases hL : ∀ x ∈ L, x.2.filter (fun f => decide (f ∉ invalid_files)) ≠ []
      · rw [if_pos hL, if_pos]
        · rw [List.map_cons, List.append_assoc]
          rfl
        · intro x hx
          rcases List.mem_cons.mp hx with h | h
          · subst h; exact he
          · exact hL x h
      · rw [if_neg hL, if_neg]
        intro hall
        exact hL (fun x hx => hall x (List.mem_cons_of_mem e hx))

theorem filter_notMem_eq_nil (invalid_files files : List String)
    (h : ∀ f ∈ files, f ∈ invalid_files) :
    files.filter (fun f => decide (f ∉ invalid_files)) = [] := by
  induction files with
  | nil => rfl
  | cons a l ih =>
    rw [List.filter_cons, if_neg, ih (fun f hf => h f (List.mem_cons_of_mem a hf))]
    simp only [decide_eq_true_eq]
    exact fun hn => hn (h a (List.mem_cons_self a l))

/-- C9: `compile_raw_data` raises the `ValueError` whenever some requested
(mapped) table has every one of its resolved files recorded in the
invalid-file ledger; when every table keeps at least one file, compilation
proceeds on exactly the non-excluded files of each table, with the
partial-exclusion warning fired exactly for the tables where a proper
subset of files was dropped. -/
theorem claim_C9 (run_start run_end : Dt) (forecast_type : String)
    (raw_tables invalid_files : List String) :
    ((∃ e ∈ map_files_to_table run_start run_end forecast_type raw_tables,
        ∀ f ∈ e.2, f ∈ invalid_files) →
      compile_raw_data run_start run_end forecast_type raw_tables invalid_files =
        Except.error allInvalidMsg) ∧
    ((∀ e ∈ map_files_to_table run_start run_end forecast_type raw_tables,
        ∃ f ∈ e.2, f ∉ invalid_files) →
      compile_raw_data run_start run_end forecast_type raw_tables invalid_files =
        Except.ok ((map_files_to_table run_start run_end forecast_type raw_tables).map
          (fun e =>
            (e.1, e.2.filter (fun f => decide (f ∉ invalid_files)),
              decide ((e.2.filter (fun f => decide (f ∉ invalid_files))).length
                < e.2.length))))) := by
  constructor
  · rintro ⟨e, he, hall⟩
    unfold compile_raw_data
    rw [compile_foldl_ok]
    rw [if_neg]
    intro hforall
    exact hforall e he (filter_notMem_eq_nil invalid_files e.2 hall)
  · intro hforall
    have hcond : ∀ e ∈ map_files_to_table run_start run_end forecast_type raw_tables,
        e.2.filter (fun f => decide (f ∉ invalid_files)) ≠ [] := by
      intro x hx hnil
      obtain ⟨f, hf, hfn⟩ := hforall x hx
      have hmem : f ∈ x.2.filter (fun f => decide (f ∉ invalid_files)) :=
        List.mem_filter.mpr ⟨hf, decide_eq_true hfn⟩
      rw [hnil] at hmem
      simp at hmem
    unfold compile_raw_data
    rw [compile_foldl_ok, if_pos hcond]
    rfl

/-- C9 witness: a P5MIN CONSTRAINTSOLUTION query over January 2021 resolves
to four files; with all four in the ledger compilation raises, and with
exactly one in the ledger it proceeds on the other three with the warning
fired. -/
theorem claim_C9_witness :
    (compile_raw_data ⟨2021, 1, 1, 0, 0⟩ ⟨2021, 1, 1, 0, 0⟩ "P5MIN"
        ["CONSTRAINTSOLUTION"]
        ["PUBLIC_DVD_P5MIN_CONSTRAINTSOLUTION1_202101010000",
         "PUBLIC_DVD_P5MIN_CONSTRAINTSOLUTION2_202101010000",
         "PUBLIC_DVD_P5MIN_CONSTRAINTSOLUTION3_202101010000",
         "PUBLIC_DVD_P5MIN_CONSTRAINTSOLUTION4_202101010000"] =
      Except.error allInvalidMsg) ∧
    (compile_raw_data ⟨2021, 1, 1, 0, 0⟩ ⟨2021, 1, 1, 0, 0⟩ "P5MIN"
        ["CONSTRAINTSOLUTION"]
        ["PUBLIC_DVD_P5MIN_CONSTRAINTSOLUTION1_202101010000"] =
      Except.ok [("CONSTRAINTSOLUTION",
        ["PUBLIC_DVD_P5MIN_CONSTRAINTSOLUTION2_202101010000",
         "PUBLIC_DVD_P5MIN_CONSTRAINTSOLUTION3_202101010000",
         "PUBLIC_DVD_P5MIN_CONSTRAINTSOLUTION4_202101010000"], true)]) := by
  constructor
  · exact (claim_C9 ⟨2021, 1, 1, 0, 0⟩ ⟨2021, 1, 1, 0, 0⟩ "P5MIN" ["CONSTRAINTSOLUTION"]
      ["PUBLIC_DVD_P5MIN_CONSTRAINTSOLUTION1_202101010000",
       "PUBLIC_DVD_P5MIN_CONSTRAINTSOLUTION2_202101010000",
       "PUBLIC_DVD_P5MIN_CONSTRAINTSOLUTION3_202101010000",
       "PUBLIC_DVD_P5MIN_CONSTRAINTSOLUTION4_202101010000"]).1 (by decide)
  · have h := (claim_C9 ⟨2021, 1, 1, 0, 0⟩ ⟨2021, 1, 1, 0, 0⟩ "P5MIN" ["CONSTRAINTSOLUTION"]
      ["PUBLIC_DVD_P5MIN_CONSTRAINTSOLUTION1_202101010000"]).2 (by decide)
    rw [h]
    rfl
